import Mathlib

/-!
# Machine-hook interception protocol of dosbox-x (hook.cpp, hydra.cpp, core_normal.cpp)

A shallow embedding of the register bridge (`cpu_state_dump` / `cpu_state_load`),
the loader (`HOOK_Init` / `HYDRA_Init` / `init_hook`), the interception entry
points (`HOOK_Attempt`, `HOOK_Notify_Ip`, `HYDRA_Attempt`, `HYDRA_Notify_Ip`,
`attempt_hook`, `notify_ip`), the audio bridge (`HYDRA_AudioCallback`), the
host-address resolver (`*_machine_mem_hostaddr`) and the instruction loop
`CPU_Core_Normal_Run`.

Machine integers are natural numbers with explicit reduction modulo `2^w`.
Global C state is passed explicitly.  The plugin is a record of functions over
an abstract state `X` that stands for everything the plugin can reach besides
the host register file (its own memory, guest memory and ports).
-/

namespace DosboxHook

/-! ## Register snapshot -/

/-- Value stored into a `uint16_t` object. -/
def u16 (n : Nat) : Nat := n % 65536

/-- Value stored into a `uint32_t` object (`PhysPt`, `reg_eip`). -/
def u32 (n : Nat) : Nat := n % 4294967296

/-- The struct `hooklib_machine_registers` of hooklib.h: fourteen `uint16_t` fields. -/
structure hooklib_machine_registers where
  ax : Nat
  bx : Nat
  cx : Nat
  dx : Nat
  si : Nat
  di : Nat
  bp : Nat
  sp : Nat
  ip : Nat
  cs : Nat
  ds : Nat
  es : Nat
  ss : Nat
  flags : Nat
deriving DecidableEq, Repr

/-- The struct `hydra_machine_registers` of hydra_machine.h has the same fourteen fields. -/
abbrev hydra_machine_registers := hooklib_machine_registers

/-- A snapshot after `memset(.., 0, ..)`. -/
def hooklib_machine_registers.zero : hooklib_machine_registers :=
  { ax := 0, bx := 0, cx := 0, dx := 0, si := 0, di := 0, bp := 0, sp := 0, ip := 0,
    cs := 0, ds := 0, es := 0, ss := 0, flags := 0 }

/-- What a plugin leaves in the snapshot: each field is a `uint16_t` object, so
whatever the plugin assigns is reduced modulo `2^16`. -/
def hooklib_machine_registers.stored (m : hooklib_machine_registers) :
    hooklib_machine_registers :=
  { ax := u16 m.ax, bx := u16 m.bx, cx := u16 m.cx, dx := u16 m.dx,
    si := u16 m.si, di := u16 m.di, bp := u16 m.bp, sp := u16 m.sp, ip := u16 m.ip,
    cs := u16 m.cs, ds := u16 m.ds, es := u16 m.es, ss := u16 m.ss,
    flags := u16 m.flags }

/-! ## Host register file -/

/-- Segment register names (`enum SegNames`). -/
inductive SegNames where
  | es | cs | ss | ds | fs | gs
deriving DecidableEq, Repr

/-- Modelled from the spec: the host register file (`cpu_regs` and `Segs`, declared in
include/regs.h, which is not among the sources).  The snapshot "mirrors the real-mode
register file" of a host whose core is `CPU_ARCHTYPE_386`: core_normal.cpp itself uses the
32-bit `reg_eip` next to the 16-bit `reg_ip`, and a segment base `SegPhys(c)` next to the
segment value `SegValue(c)`.  So the general registers and the instruction pointer are
32-bit objects with a 16-bit low word (`reg_ax` .. `reg_ip`), `reg_flags` is the whole
32-bit flags register, and each segment register has a 16-bit value and a 32-bit base. -/
structure CPU_Regs where
  eax : Nat
  ebx : Nat
  ecx : Nat
  edx : Nat
  esi : Nat
  edi : Nat
  ebp : Nat
  esp : Nat
  eip : Nat
  flags : Nat
  val_es : Nat
  val_cs : Nat
  val_ss : Nat
  val_ds : Nat
  val_fs : Nat
  val_gs : Nat
  phys_es : Nat
  phys_cs : Nat
  phys_ss : Nat
  phys_ds : Nat
  phys_fs : Nat
  phys_gs : Nat
deriving DecidableEq, Repr

/-- Every object of the register file holds a value of its C type. -/
def CPU_Regs.wf (r : CPU_Regs) : Prop :=
  r.eax < 4294967296 ∧ r.ebx < 4294967296 ∧ r.ecx < 4294967296 ∧ r.edx < 4294967296 ∧
  r.esi < 4294967296 ∧ r.edi < 4294967296 ∧ r.ebp < 4294967296 ∧ r.esp < 4294967296 ∧
  r.eip < 4294967296 ∧ r.flags < 4294967296 ∧
  r.val_es < 65536 ∧ r.val_cs < 65536 ∧ r.val_ss < 65536 ∧ r.val_ds < 65536 ∧
  r.val_fs < 65536 ∧ r.val_gs < 65536 ∧
  r.phys_es < 4294967296 ∧ r.phys_cs < 4294967296 ∧ r.phys_ss < 4294967296 ∧
  r.phys_ds < 4294967296 ∧ r.phys_fs < 4294967296 ∧ r.phys_gs < 4294967296

instance (r : CPU_Regs) : Decidable r.wf := by
  unfold CPU_Regs.wf; infer_instance

/-- Modelled from the spec: the macros `reg_ax` .. `reg_ip` of include/regs.h (not among
the sources) name the low 16-bit word of a 32-bit register; this is that word read as a
value. -/
def lowWord (d : Nat) : Nat := d % 65536

/-- Modelled from the spec: an assignment through one of the macros `reg_ax` .. `reg_ip`
of include/regs.h (not among the sources) replaces the low 16-bit word of the 32-bit
register and keeps its high word. -/
def setLowWord (d v : Nat) : Nat := d / 65536 * 65536 + v % 65536

/-- Modelled from the spec: the macro `reg_ax` of include/regs.h (not among the sources),
read as a value: the low word of `eax`. -/
def reg_ax (r : CPU_Regs) : Nat := lowWord r.eax

/-- Modelled from the spec: the macro `reg_bx` of include/regs.h (not among the sources),
read as a value: the low word of `ebx`. -/
def reg_bx (r : CPU_Regs) : Nat := lowWord r.ebx

/-- Modelled from the spec: the macro `reg_cx` of include/regs.h (not among the sources),
read as a value: the low word of `ecx`. -/
def reg_cx (r : CPU_Regs) : Nat := lowWord r.ecx

/-- Modelled from the spec: the macro `reg_dx` of include/regs.h (not among the sources),
read as a value: the low word of `edx`. -/
def reg_dx (r : CPU_Regs) : Nat := lowWord r.edx

/-- Modelled from the spec: the macro `reg_si` of include/regs.h (not among the sources),
read as a value: the low word of `esi`. -/
def reg_si (r : CPU_Regs) : Nat := lowWord r.esi

/-- Modelled from the spec: the macro `reg_di` of include/regs.h (not among the sources),
read as a value: the low word of `edi`. -/
def reg_di (r : CPU_Regs) : Nat := lowWord r.edi

/-- Modelled from the spec: the macro `reg_bp` of include/regs.h (not among the sources),
read as a value: the low word of `ebp`. -/
def reg_bp (r : CPU_Regs) : Nat := lowWord r.ebp

/-- Modelled from the spec: the macro `reg_sp` of include/regs.h (not among the sources),
read as a value: the low word of `esp`. -/
def reg_sp (r : CPU_Regs) : Nat := lowWord r.esp

/-- Modelled from the spec: the macro `reg_ip` of include/regs.h (not among the sources),
read as a value: the low word of `eip`. -/
def reg_ip (r : CPU_Regs) : Nat := lowWord r.eip

/-- Modelled from the spec: the macro `reg_eip` of include/regs.h (not among the sources),
the whole 32-bit instruction pointer that `SAVEIP` and `LOADIP` use. -/
def reg_eip (r : CPU_Regs) : Nat := r.eip

/-- Modelled from the spec: the macro `reg_flags` of include/regs.h (not among the
sources): the whole flags register of the host, not a 16-bit part of it. -/
def reg_flags (r : CPU_Regs) : Nat := r.flags

/-- Modelled from the spec: the inline `SegValue(index)` of include/regs.h (not among the
sources), the 16-bit value of a segment register: `(uint16_t)Segs.val[index]`. -/
def SegValue (r : CPU_Regs) : SegNames → Nat
  | .es => u16 r.val_es
  | .cs => u16 r.val_cs
  | .ss => u16 r.val_ss
  | .ds => u16 r.val_ds
  | .fs => u16 r.val_fs
  | .gs => u16 r.val_gs

/-- Modelled from the spec: the inline `SegPhys(index)` of include/regs.h (not among the
sources), the base of a segment register, which core_normal.cpp reads as `SegBase(c)`:
`Segs.phys[index]`. -/
def SegPhys (r : CPU_Regs) : SegNames → Nat
  | .es => r.phys_es
  | .cs => r.phys_cs
  | .ss => r.phys_ss
  | .ds => r.phys_ds
  | .fs => r.phys_fs
  | .gs => r.phys_gs

/-- Modelled from the spec: the inline `SegSet16(index, val)` of include/regs.h (not among
the sources), the real-mode load of a segment register: it stores the 16-bit value and
sets the base to `value << 4` (`Segs.val[index]=val; Segs.phys[index]=(PhysPt)val << 4`). -/
def SegSet16 (r : CPU_Regs) (index : SegNames) (val : Nat) : CPU_Regs :=
  match index with
  | .es => { r with val_es := u16 val, phys_es := u32 (u16 val * 16) }
  | .cs => { r with val_cs := u16 val, phys_cs := u32 (u16 val * 16) }
  | .ss => { r with val_ss := u16 val, phys_ss := u32 (u16 val * 16) }
  | .ds => { r with val_ds := u16 val, phys_ds := u32 (u16 val * 16) }
  | .fs => { r with val_fs := u16 val, phys_fs := u32 (u16 val * 16) }
  | .gs => { r with val_gs := u16 val, phys_gs := u32 (u16 val * 16) }

/-! ## Register bridge

`cpu_state_dump` and `cpu_state_load` are defined three times with the same body:
hook.cpp:82-122, hydra.cpp:87-127 and core_normal.cpp:108-148. -/

/-- The function `cpu_state_dump(cpu)`: fourteen assignments into the snapshot `cpu`. -/
def cpu_state_dump (r : CPU_Regs) (cpu : hooklib_machine_registers) :
    hooklib_machine_registers :=
  let cpu := { cpu with ax := u16 (reg_ax r) }
  let cpu := { cpu with bx := u16 (reg_bx r) }
  let cpu := { cpu with cx := u16 (reg_cx r) }
  let cpu := { cpu with dx := u16 (reg_dx r) }
  let cpu := { cpu with si := u16 (reg_si r) }
  let cpu := { cpu with di := u16 (reg_di r) }
  let cpu := { cpu with bp := u16 (reg_bp r) }
  let cpu := { cpu with sp := u16 (reg_sp r) }
  let cpu := { cpu with ip := u16 (reg_ip r) }
  let cpu := { cpu with cs := u16 (SegValue r .cs) }
  let cpu := { cpu with ds := u16 (SegValue r .ds) }
  let cpu := { cpu with es := u16 (SegValue r .es) }
  let cpu := { cpu with ss := u16 (SegValue r .ss) }
  { cpu with flags := u16 (reg_flags r) }

/-- The function `cpu_state_load(cpu)`: fourteen assignments into the host register file. -/
def cpu_state_load (cpu : hooklib_machine_registers) (r : CPU_Regs) : CPU_Regs :=
  let r := { r with eax := setLowWord r.eax cpu.ax }
  let r := { r with ebx := setLowWord r.ebx cpu.bx }
  let r := { r with ecx := setLowWord r.ecx cpu.cx }
  let r := { r with edx := setLowWord r.edx cpu.dx }
  let r := { r with esi := setLowWord r.esi cpu.si }
  let r := { r with edi := setLowWord r.edi cpu.di }
  let r := { r with ebp := setLowWord r.ebp cpu.bp }
  let r := { r with esp := setLowWord r.esp cpu.sp }
  let r := { r with eip := setLowWord r.eip cpu.ip }
  let r := SegSet16 r .cs cpu.cs
  let r := SegSet16 r .ds cpu.ds
  let r := SegSet16 r .es cpu.es
  let r := SegSet16 r .ss cpu.ss
  { r with flags := u16 cpu.flags }

/-- The real-mode form of the four bridged registers' derived state: the flags register
fits in 16 bits and each of `cs`, `ds`, `es`, `ss` has base `value << 4`. -/
def CPU_Regs.bridged16 (r : CPU_Regs) : Prop :=
  r.flags < 65536 ∧ r.phys_cs = r.val_cs * 16 ∧ r.phys_ds = r.val_ds * 16 ∧
  r.phys_es = r.val_es * 16 ∧ r.phys_ss = r.val_ss * 16

instance (r : CPU_Regs) : Decidable r.bridged16 := by
  unfold CPU_Regs.bridged16; infer_instance

/-- A host register file with everything zero. -/
def CPU_Regs.zero : CPU_Regs :=
  { eax := 0, ebx := 0, ecx := 0, edx := 0, esi := 0, edi := 0, ebp := 0, esp := 0,
    eip := 0, flags := 0, val_es := 0, val_cs := 0, val_ss := 0, val_ds := 0,
    val_fs := 0, val_gs := 0, phys_es := 0, phys_cs := 0, phys_ss := 0, phys_ds := 0,
    phys_fs := 0, phys_gs := 0 }

/-! ## Hardware access bridge -/

/-- Diagnostics of the `FAIL(...)` macro, which prints the message and calls `abort()`. -/
inductive FailMsg where
  | load_failed (libpath : String)
  | missing_init
  | missing_exec
  | missing_notify
  | no_host_address (addr : Nat)
deriving DecidableEq, Repr

/-- The function `hooklib_machine_mem_hostaddr(ctx, addr)` of hook.cpp:21-29; `MemBase` is
the value of `GetMemBase()`. -/
def hooklib_machine_mem_hostaddr (MemBase : Nat) (addr : Nat) : Except FailMsg Nat :=
  if 0x8000 ≤ addr ∧ addr < 0x9f000 then
    .ok (MemBase + addr)
  else
    .error (.no_host_address addr)

/-- The function `hydra_machine_mem_hostaddr(ctx, addr)` of hydra.cpp:24-32. -/
def hydra_machine_mem_hostaddr (MemBase : Nat) (addr : Nat) : Except FailMsg Nat :=
  if 0x8000 ≤ addr ∧ addr < 0x9f000 then
    .ok (MemBase + addr)
  else
    .error (.no_host_address addr)

/-- The copy of `hooklib_machine_mem_hostaddr` in core_normal.cpp:43-55. -/
def core_normal_mem_hostaddr (MemBase : Nat) (addr : Nat) : Except FailMsg Nat :=
  if 0x8000 ≤ addr ∧ addr < 0x9f000 then
    .ok (MemBase + addr)
  else
    .error (.no_host_address addr)

/-- The nine host adapters a hardware table can point to. -/
inductive HwFn where
  | mem_hostaddr | mem_read8 | mem_read16 | mem_write8 | mem_write16
  | io_in8 | io_in16 | io_out8 | io_out16
deriving DecidableEq, Repr

/-- The struct `hooklib_machine_hardware` (and `hydra_machine_hardware`): a context
pointer (`0` is `NULL`) and nine function pointers (`none` is a null pointer). -/
structure hooklib_machine_hardware where
  ctx : Nat
  mem_hostaddr : Option HwFn
  mem_read8 : Option HwFn
  mem_read16 : Option HwFn
  mem_write8 : Option HwFn
  mem_write16 : Option HwFn
  io_in8 : Option HwFn
  io_in16 : Option HwFn
  io_out8 : Option HwFn
  io_out16 : Option HwFn
deriving DecidableEq, Repr

/-- A hardware table after `memset(.., 0, ..)`. -/
def hooklib_machine_hardware.zero : hooklib_machine_hardware :=
  { ctx := 0, mem_hostaddr := none, mem_read8 := none, mem_read16 := none,
    mem_write8 := none, mem_write16 := none, io_in8 := none, io_in16 := none,
    io_out8 := none, io_out16 := none }

/-- The struct `hooklib_machine` (and `hydra_machine`). -/
structure hooklib_machine where
  hardware : hooklib_machine_hardware
  registers : hooklib_machine_registers
deriving DecidableEq, Repr

/-- The ten assignments that fill the hardware table in `HOOK_Init`, `HYDRA_Init` and
`init_hook`, after the `memset` of the machine. -/
def bind_hardware (m : hooklib_machine) : hooklib_machine :=
  let hw := m.hardware
  let hw := { hw with ctx := 0 }
  let hw := { hw with mem_hostaddr := some .mem_hostaddr }
  let hw := { hw with mem_read8 := some .mem_read8 }
  let hw := { hw with mem_read16 := some .mem_read16 }
  let hw := { hw with mem_write8 := some .mem_write8 }
  let hw := { hw with mem_write16 := some .mem_write16 }
  let hw := { hw with io_in8 := some .io_in8 }
  let hw := { hw with io_in16 := some .io_in16 }
  let hw := { hw with io_out8 := some .io_out8 }
  let hw := { hw with io_out16 := some .io_out16 }
  { m with hardware := hw }

/-! ## Plugin entry points and the observable trace -/

/-- One invocation of a plugin entry point, with the arguments the host passed. -/
inductive Event where
  | init (hw : hooklib_machine_hardware)
  | exec (registers : hooklib_machine_registers) (interrupt_count : Nat)
  | notify (registers : hooklib_machine_registers)
  | audio (ctx : Nat) (stream : Nat) (len : Int)
deriving DecidableEq, Repr

/-- What a call of `exec` leaves behind: the plugin's reachable state, `CPU_Cycles` (the
port adapters of the host charge I/O delay to it), the snapshot, and the `int` returned. -/
structure ExecOut (X : Type) where
  ext : X
  CPU_Cycles : Int
  registers : hooklib_machine_registers
  ret : Int

/-- What a call of `notify` leaves behind (it returns `void`). -/
structure NotifyOut (X : Type) where
  ext : X
  CPU_Cycles : Int
  registers : hooklib_machine_registers

/-- Signature `HOOKLIB_INIT_FUNC`: `void name(hooklib_machine_hardware_t *hw)`. -/
abbrev hooklib_init_fn (X : Type) := X → hooklib_machine_hardware → X

/-- Signature `HOOKLIB_EXEC_FUNC` / `HYDRA_MACHINE_EXEC_FUNC`:
`int name(machine *m, size_t interrupt_count)`. -/
abbrev hooklib_exec_fn (X : Type) :=
  X → Int → hooklib_machine_registers → Nat → ExecOut X

/-- Signature `HOOKLIB_NOTIFY_FUNC` / `HYDRA_MACHINE_NOTIFY_FUNC`: `void name(machine *m)`. -/
abbrev hooklib_notify_fn (X : Type) :=
  X → Int → hooklib_machine_registers → NotifyOut X

/-- The callback type of `hydra_machine_audio`: `void cb(void *userdata, uint8_t *stream, int len)`. -/
abbrev hydra_audio_cb (X : Type) := X → Nat → Nat → Int → X

/-- The struct `hydra_machine_audio`: a callback (`none` is null) and its context. -/
structure hydra_machine_audio (X : Type) where
  cb : Option (hydra_audio_cb X)
  ctx : Nat

/-- Result of `hydra_machine_init`: it may fill in the audio struct it was handed. -/
structure HydraInitOut (X : Type) where
  ext : X
  audio : hydra_machine_audio X

/-- Signature `HYDRA_MACHINE_INIT_FUNC`: `void name(hardware *hw, hydra_machine_audio_t *audio)`. -/
abbrev hydra_machine_init_fn (X : Type) :=
  X → hooklib_machine_hardware → hydra_machine_audio X → HydraInitOut X

/-- What `dlsym` finds in a module opened for hook.cpp / core_normal.cpp: each of the
symbols `hooklib_init`, `hooklib_exec`, `hooklib_notify` may be absent. -/
structure HookModule (X : Type) where
  hooklib_init : Option (hooklib_init_fn X)
  hooklib_exec : Option (hooklib_exec_fn X)
  hooklib_notify : Option (hooklib_notify_fn X)

/-- What `dlsym` finds in a module opened for hydra.cpp: the symbols
`hydra_machine_init`, `hydra_machine_exec`, `hydra_machine_notify`. -/
structure HydraModule (X : Type) where
  hydra_machine_init : Option (hydra_machine_init_fn X)
  hydra_machine_exec : Option (hooklib_exec_fn X)
  hydra_machine_notify : Option (hooklib_notify_fn X)

/-- How a call ends: it returns a value, it aborts through `FAIL`, it calls through a
null function pointer, or (loops only) it is still running when the fuel is spent.  Each
case carries the global state at that point. -/
inductive Outcome (W α : Type) where
  | ret (w : W) (a : α)
  | fail (w : W) (msg : FailMsg)
  | crash (w : W)
  | running (w : W)

/-- The global state at the end of a call. -/
def Outcome.world {W α : Type} : Outcome W α → W
  | .ret w _ => w
  | .fail w _ => w
  | .crash w => w
  | .running w => w

/-- The host state outside the plugin binding: the register file, the global
`InterruptCount`, the global `CPU_Cycles`, and everything else the plugin can reach. -/
structure Host (X : Type) where
  regs : CPU_Regs
  InterruptCount : Nat
  CPU_Cycles : Int
  ext : X

/-- The call `exec(machine, InterruptCount)` through a non-null pointer `f`. -/
def call_exec {X : Type} (f : hooklib_exec_fn X) (h : Host X)
    (m : hooklib_machine_registers) : ExecOut X :=
  f h.ext h.CPU_Cycles m h.InterruptCount

/-- The call `notify(machine)` through a non-null pointer `f`. -/
def call_notify {X : Type} (f : hooklib_notify_fn X) (h : Host X)
    (m : hooklib_machine_registers) : NotifyOut X :=
  f h.ext h.CPU_Cycles m

/-! ## hook.cpp -/

/-- The struct `hooklib` (hook.cpp:12-19, core_normal.cpp:34-41): the library handle,
three function pointers (`none` is null) and the machine handed to the plugin. -/
structure hooklib (X : Type) where
  lib : Option (HookModule X)
  init : Option (hooklib_init_fn X)
  exec : Option (hooklib_exec_fn X)
  notify : Option (hooklib_notify_fn X)
  machine : hooklib_machine

/-- The file-scope state of hook.cpp (`hook[1]`, `hook_enable`) with the host state it
touches and the trace of plugin invocations. -/
structure HookWorld (X : Type) where
  hook : hooklib X
  hook_enable : Bool
  host : Host X
  log : List Event

/-- The function `HOOK_Init(libpath)` of hook.cpp:52-80; `dlopen` stands for the dynamic
loader (`none` when the module cannot be opened). -/
def HOOK_Init {X : Type} (dlopen : String → Option (HookModule X)) (libpath : String)
    (w : HookWorld X) : Outcome (HookWorld X) Unit :=
  let w := { w with hook.lib := dlopen libpath }
  match w.hook.lib with
  | none => .fail w (.load_failed libpath)
  | some lib =>
    let w := { w with hook.init := lib.hooklib_init }
    match w.hook.init with
    | none => .fail w .missing_init
    | some init =>
      let w := { w with hook.exec := lib.hooklib_exec }
      match w.hook.exec with
      | none => .fail w .missing_exec
      | some _ =>
        let w := { w with hook.notify := lib.hooklib_notify }
        match w.hook.notify with
        | none => .fail w .missing_notify
        | some _ =>
          let w := { w with hook.machine := bind_hardware ⟨.zero, .zero⟩ }
          let w := { w with
            host.ext := init w.host.ext w.hook.machine.hardware,
            log := w.log ++ [Event.init w.hook.machine.hardware] }
          .ret { w with hook_enable := true } ()

/-- The function `HOOK_Attempt()` of hook.cpp:124-136. -/
def HOOK_Attempt {X : Type} (w : HookWorld X) : Outcome (HookWorld X) Int :=
  if !w.hook_enable then
    .ret w 0
  else
    let cpu := cpu_state_dump w.host.regs w.hook.machine.registers
    let w := { w with hook.machine.registers := cpu }
    match w.hook.exec with
    | none => .crash w
    | some exec =>
      let out := call_exec exec w.host w.hook.machine.registers
      let w := { w with
        log := w.log ++ [Event.exec w.hook.machine.registers w.host.InterruptCount],
        host.ext := out.ext,
        host.CPU_Cycles := out.CPU_Cycles,
        hook.machine.registers := out.registers.stored }
      let hooked := out.ret
      if hooked ≠ 0 then
        .ret { w with host.regs := cpu_state_load w.hook.machine.registers w.host.regs } hooked
      else
        .ret w hooked

/-- The function `HOOK_Notify_Ip()` of hook.cpp:138-146. -/
def HOOK_Notify_Ip {X : Type} (w : HookWorld X) : Outcome (HookWorld X) Unit :=
  if !w.hook_enable then
    .ret w ()
  else
    let cpu := cpu_state_dump w.host.regs w.hook.machine.registers
    let w := { w with hook.machine.registers := cpu }
    match w.hook.notify with
    | none => .crash w
    | some notify =>
      let out := call_notify notify w.host w.hook.machine.registers
      .ret { w with
        log := w.log ++ [Event.notify w.hook.machine.registers],
        host.ext := out.ext,
        host.CPU_Cycles := out.CPU_Cycles,
        hook.machine.registers := out.registers.stored } ()

/-! ## hydra.cpp -/

/-- The struct `hydra` (hydra.cpp:14-22): as `hooklib`, plus the audio slot. -/
structure hydra (X : Type) where
  lib : Option (HydraModule X)
  init : Option (hydra_machine_init_fn X)
  exec : Option (hooklib_exec_fn X)
  notify : Option (hooklib_notify_fn X)
  machine : hooklib_machine
  audio : hydra_machine_audio X

/-- The file-scope state of hydra.cpp (`hydra[1]`, `hydra_enable`) with the host state
it touches and the trace of plugin invocations. -/
structure HydraWorld (X : Type) where
  hydra : hydra X
  hydra_enable : Bool
  host : Host X
  log : List Event

/-- The function `HYDRA_Init(libpath)` of hydra.cpp:55-85 (the `LOG_MSG` line is not
modelled). -/
def HYDRA_Init {X : Type} (dlopen : String → Option (HydraModule X)) (libpath : String)
    (w : HydraWorld X) : Outcome (HydraWorld X) Unit :=
  let w := { w with hydra.lib := dlopen libpath }
  match w.hydra.lib with
  | none => .fail w (.load_failed libpath)
  | some lib =>
    let w := { w with hydra.init := lib.hydra_machine_init }
    match w.hydra.init with
    | none => .fail w .missing_init
    | some init =>
      let w := { w with hydra.exec := lib.hydra_machine_exec }
      match w.hydra.exec with
      | none => .fail w .missing_exec
      | some _ =>
        let w := { w with hydra.notify := lib.hydra_machine_notify }
        match w.hydra.notify with
        | none => .fail w .missing_notify
        | some _ =>
          let w := { w with hydra.machine := bind_hardware ⟨.zero, .zero⟩ }
          let out := init w.host.ext w.hydra.machine.hardware w.hydra.audio
          let w := { w with
            log := w.log ++ [Event.init w.hydra.machine.hardware],
            host.ext := out.ext,
            hydra.audio := out.audio }
          .ret { w with hydra_enable := true } ()

/-- The function `HYDRA_Attempt()` of hydra.cpp:129-141. -/
def HYDRA_Attempt {X : Type} (w : HydraWorld X) : Outcome (HydraWorld X) Int :=
  if !w.hydra_enable then
    .ret w 0
  else
    let cpu := cpu_state_dump w.host.regs w.hydra.machine.registers
    let w := { w with hydra.machine.registers := cpu }
    match w.hydra.exec with
    | none => .crash w
    | some exec =>
      let out := call_exec exec w.host w.hydra.machine.registers
      let w := { w with
        log := w.log ++ [Event.exec w.hydra.machine.registers w.host.InterruptCount],
        host.ext := out.ext,
        host.CPU_Cycles := out.CPU_Cycles,
        hydra.machine.registers := out.registers.stored }
      let hydraed := out.ret
      if hydraed ≠ 0 then
        .ret { w with host.regs := cpu_state_load w.hydra.machine.registers w.host.regs } hydraed
      else
        .ret w hydraed

/-- The function `HYDRA_Notify_Ip()` of hydra.cpp:143-151. -/
def HYDRA_Notify_Ip {X : Type} (w : HydraWorld X) : Outcome (HydraWorld X) Unit :=
  if !w.hydra_enable then
    .ret w ()
  else
    let cpu := cpu_state_dump w.host.regs w.hydra.machine.registers
    let w := { w with hydra.machine.registers := cpu }
    match w.hydra.notify with
    | none => .crash w
    | some notify =>
      let out := call_notify notify w.host w.hydra.machine.registers
      .ret { w with
        log := w.log ++ [Event.notify w.hydra.machine.registers],
        host.ext := out.ext,
        host.CPU_Cycles := out.CPU_Cycles,
        hydra.machine.registers := out.registers.stored } ()

/-- The function `HYDRA_AudioCallback(stream, len)` of hydra.cpp:153-161; `stream` is the
buffer's address, the buffer itself lives in the plugin-reachable state. -/
def HYDRA_AudioCallback {X : Type} (stream : Nat) (len : Int) (w : HydraWorld X) :
    Outcome (HydraWorld X) Int :=
  match w.hydra.audio.cb with
  | some cb =>
    .ret { w with
      log := w.log ++ [Event.audio w.hydra.audio.ctx stream len],
      host.ext := cb w.host.ext w.hydra.audio.ctx stream len } 1
  | none => .ret w 0

/-! ## core_normal.cpp -/

/-- The file-scope struct `core` of core_normal.cpp:243-251; `ea_table` is the index into
`EATable` the pointer refers to. -/
structure Core where
  opcode_index : Nat
  cseip : Nat
  base_ds : Nat
  base_ss : Nat
  base_val_ds : SegNames
  rep_zero : Bool
  prefixes : Nat
  ea_table : Nat
deriving DecidableEq, Repr

/-- Everything the native decoder of core_normal.cpp works on: the host state, `core`,
`last_prefix`, `cycle_count` and the flag `cpu.code.big`. -/
structure CoreState (X : Type) where
  host : Host X
  core : Core
  last_prefix : Nat
  cycle_count : Nat
  code_big : Bool

/-- The file-scope state of core_normal.cpp: its own `hook[1]` (there is no enable flag in
this file), the decoder state, and the trace of plugin invocations. -/
structure CoreWorld (X : Type) where
  hook : hooklib X
  st : CoreState X
  log : List Event

/-- How the opcode `switch` of `CPU_Core_Normal_Run` is left: by falling out of it, by
`continue`, by `goto decode_end`, or by a `return` inside a case. -/
inductive DecodeExit where
  | fallthrough
  | cont
  | decode_end
  | returns (v : Int)
deriving DecidableEq, Repr

/-- The parts of the host that `CPU_Core_Normal_Run` uses and that are declared outside
the sources, taken as parameters: the constants `CBRET_NONE` and `MP_NONE`, the value
`debugCallback`, the breakpoint test `DEBUG_HeavyIsBreakpoint` (constantly false when
`C_HEAVY_DEBUG` is off), `FillFlags`, and `decode`, the opcode `switch` with its included
case tables (from `cycle_count++` on it has no access to `hook`). -/
structure CoreEnv (X : Type) where
  CBRET_NONE : Int
  MP_NONE : Nat
  debugCallback : Int
  DEBUG_HeavyIsBreakpoint : CoreState X → CoreState X × Bool
  FillFlags : CoreState X → CoreState X
  decode : CoreState X → CoreState X × DecodeExit

/-- The function `init_hook()` of core_normal.cpp:76-106; `getenv` is the value of
`getenv("HOOKLIB_PATH")`. -/
def init_hook {X : Type} (dlopen : String → Option (HookModule X)) (getenv : Option String)
    (w : CoreWorld X) : Outcome (CoreWorld X) Unit :=
  let path := match getenv with
    | some p => p
    | none => "hooklib.dylib"
  let w := { w with hook.lib := dlopen path }
  match w.hook.lib with
  | none => .fail w (.load_failed path)
  | some lib =>
    let w := { w with hook.init := lib.hooklib_init }
    match w.hook.init with
    | none => .fail w .missing_init
    | some init =>
      let w := { w with hook.exec := lib.hooklib_exec }
      match w.hook.exec with
      | none => .fail w .missing_exec
      | some _ =>
        let w := { w with hook.notify := lib.hooklib_notify }
        match w.hook.notify with
        | none => .fail w .missing_notify
        | some _ =>
          let w := { w with hook.machine := bind_hardware ⟨.zero, .zero⟩ }
          .ret { w with
            st.host.ext := init w.st.host.ext w.hook.machine.hardware,
            log := w.log ++ [Event.init w.hook.machine.hardware] } ()

/-- The function `CPU_Core_Normal_Init()` of core_normal.cpp:389-391. -/
def CPU_Core_Normal_Init {X : Type} (dlopen : String → Option (HookModule X))
    (getenv : Option String) (w : CoreWorld X) : Outcome (CoreWorld X) Unit :=
  init_hook dlopen getenv w

/-- The function `attempt_hook()` of core_normal.cpp:150-158. -/
def attempt_hook {X : Type} (w : CoreWorld X) : Outcome (CoreWorld X) Int :=
  let cpu := cpu_state_dump w.st.host.regs w.hook.machine.registers
  let w := { w with hook.machine.registers := cpu }
  match w.hook.exec with
  | none => .crash w
  | some exec =>
    let out := call_exec exec w.st.host w.hook.machine.registers
    let w := { w with
      log := w.log ++ [Event.exec w.hook.machine.registers w.st.host.InterruptCount],
      st.host.ext := out.ext,
      st.host.CPU_Cycles := out.CPU_Cycles,
      hook.machine.registers := out.registers.stored }
    let hooked := out.ret
    if hooked ≠ 0 then
      .ret { w with
        st.host.regs := cpu_state_load w.hook.machine.registers w.st.host.regs } hooked
    else
      .ret w hooked

/-- The function `notify_ip()` of core_normal.cpp:160-164. -/
def notify_ip {X : Type} (w : CoreWorld X) : Outcome (CoreWorld X) Unit :=
  let cpu := cpu_state_dump w.st.host.regs w.hook.machine.registers
  let w := { w with hook.machine.registers := cpu }
  match w.hook.notify with
  | none => .crash w
  | some notify =>
    let out := call_notify notify w.st.host w.hook.machine.registers
    .ret { w with
      log := w.log ++ [Event.notify w.hook.machine.registers],
      st.host.ext := out.ext,
      st.host.CPU_Cycles := out.CPU_Cycles,
      hook.machine.registers := out.registers.stored } ()

/-- The macro `LOADIP`: `core.cseip=((PhysPt)(SegBase(cs)+reg_eip))`. -/
def LOADIP {X : Type} (st : CoreState X) : CoreState X :=
  { st with core.cseip := u32 (SegPhys st.host.regs .cs + reg_eip st.host.regs) }

/-- The macro `SAVEIP`: `reg_eip=GETIP`, with `GETIP` the 32-bit difference
`core.cseip-SegBase(cs)`. -/
def SAVEIP {X : Type} (st : CoreState X) : CoreState X :=
  { st with host.regs.eip :=
              u32 (u32 st.core.cseip + (4294967296 - u32 (SegPhys st.host.regs .cs))) }

/-- Lines 308-315 of `CPU_Core_Normal_Run`: the per-instruction set-up of `core`. -/
def decode_setup {X : Type} (env : CoreEnv X) (st : CoreState X) : CoreState X :=
  let st := LOADIP st
  let st := { st with last_prefix := env.MP_NONE }
  let st := { st with core.opcode_index := st.code_big.toNat * 0x200 }
  let st := { st with core.prefixes := st.code_big.toNat }
  let st := { st with core.ea_table := st.code_big.toNat * 256 }
  let st := { st with core.base_ds := SegPhys st.host.regs .ds }
  let st := { st with core.base_ss := SegPhys st.host.regs .ss }
  { st with core.base_val_ds := .ds }

/-- One pass through the body of `while (1)`: either control goes back to the top of the
loop or the function is left. -/
inductive LoopStep (X : Type) where
  | next (w : CoreWorld X)
  | done (o : Outcome (CoreWorld X) Int)

/-- The body of `while (1)` in `CPU_Core_Normal_Run` (core_normal.cpp:304-364), together
with the code after the loop and after the label `decode_end`. -/
def loop_body {X : Type} (env : CoreEnv X) (w : CoreWorld X) : LoopStep X :=
  match notify_ip w with
  | .fail w m => .done (.fail w m)
  | .crash w => .done (.crash w)
  | .running w => .done (.running w)
  | .ret w _ =>
    let c := w.st.host.CPU_Cycles
    let w := { w with st.host.CPU_Cycles := c - 1 }
    if ¬ (c > 0) then
      .done (.ret { w with st := env.FillFlags w.st } env.CBRET_NONE)
    else
      let w := { w with st := decode_setup env w.st }
      let bp := env.DEBUG_HeavyIsBreakpoint w.st
      let w := { w with st := bp.1 }
      if bp.2 then
        .done (.ret { w with st := env.FillFlags w.st } env.debugCallback)
      else
        match attempt_hook w with
        | .fail w m => .done (.fail w m)
        | .crash w => .done (.crash w)
        | .running w => .done (.running w)
        | .ret w hooked =>
          if hooked ≠ 0 then
            .next w
          else
            let w := { w with st.cycle_count := w.st.cycle_count + 1 }
            let d := env.decode w.st
            let w := { w with st := d.1 }
            match d.2 with
            | .cont => .next w
            | .returns v => .done (.ret w v)
            | .fallthrough =>
              let w := { w with st := SAVEIP w.st }
              match notify_ip w with
              | .fail w m => .done (.fail w m)
              | .crash w => .done (.crash w)
              | .running w => .done (.running w)
              | .ret w _ => .next w
            | .decode_end =>
              let w := { w with st := SAVEIP w.st }
              match notify_ip w with
              | .fail w m => .done (.fail w m)
              | .crash w => .done (.crash w)
              | .running w => .done (.running w)
              | .ret w _ => .done (.ret { w with st := env.FillFlags w.st } env.CBRET_NONE)

/-- The loop `while (1)`, unrolled at most `fuel` times. -/
def run_loop {X : Type} (env : CoreEnv X) : Nat → CoreWorld X → Outcome (CoreWorld X) Int
  | 0, w => .running w
  | fuel + 1, w =>
    match loop_body env w with
    | .next w => run_loop env fuel w
    | .done o => o

/-- The function `CPU_Core_Normal_Run()` of core_normal.cpp:300-372. -/
def CPU_Core_Normal_Run {X : Type} (env : CoreEnv X) (fuel : Nat) (w : CoreWorld X) :
    Outcome (CoreWorld X) Int :=
  if w.st.host.CPU_Cycles ≤ 0 then
    .ret w env.CBRET_NONE
  else
    run_loop env fuel w

/-! ## Concrete register states and plugins used as test inputs -/

/-- A real-mode register state: bases are `value << 4`, the flags fit in 16 bits, and the
high words of the general registers are in use. -/
def sampleRegs : CPU_Regs :=
  { eax := 0x12345678, ebx := 0x0000BEEF, ecx := 0x00010003, edx := 0x00000004,
    esi := 0x00000100, edi := 0x00000200, ebp := 0x0000FFF0, esp := 0x0000FFEE,
    eip := 0x00000100, flags := 0x0202,
    val_es := 0x2000, val_cs := 0x1000, val_ss := 0x3000, val_ds := 0x2000,
    val_fs := 0, val_gs := 0,
    phys_es := 0x20000, phys_cs := 0x10000, phys_ss := 0x30000, phys_ds := 0x20000,
    phys_fs := 0, phys_gs := 0 }

/-- The state `sampleRegs` with the ID flag (bit 21 of the flags register) set. -/
def idFlagRegs : CPU_Regs := { sampleRegs with flags := 0x200202 }

/-- The state `sampleRegs` with a `ds` base that is not `value << 4` (a flat 4 GiB-style
descriptor base left in the segment cache). -/
def flatDsRegs : CPU_Regs := { sampleRegs with phys_ds := 0 }

/-- The fourteen host register fields as the bridge macros read them: `reg_ax` ..
`reg_ip`, `SegValue(cs)` .. `SegValue(ss)` and the whole `reg_flags`. -/
def host_fields (r : CPU_Regs) : hooklib_machine_registers :=
  { ax := reg_ax r, bx := reg_bx r, cx := reg_cx r, dx := reg_dx r,
    si := reg_si r, di := reg_di r, bp := reg_bp r, sp := reg_sp r, ip := reg_ip r,
    cs := SegValue r .cs, ds := SegValue r .ds, es := SegValue r .es, ss := SegValue r .ss,
    flags := reg_flags r }

/-- The stub plugin of the specification: `exec` sets `ax = 0xABCD`, leaves the other
thirteen fields as it found them, and returns true. -/
def stub_exec {X : Type} : hooklib_exec_fn X :=
  fun x cycles m _ =>
    { ext := x, CPU_Cycles := cycles, registers := { m with ax := 0xABCD }, ret := 1 }

/-- A snapshot with every field overwritten. -/
def scribble : hooklib_machine_registers :=
  { ax := 0xFFFF, bx := 0xFFFE, cx := 0xFFFD, dx := 0xFFFC, si := 0xFFFB, di := 0xFFFA,
    bp := 0xFFF9, sp := 0xFFF8, ip := 0xFFF7, cs := 0xFFF6, ds := 0xFFF5, es := 0xFFF4,
    ss := 0xFFF3, flags := 0xFFF2 }

/-- An `exec` that overwrites the whole snapshot, counts its calls in the plugin state,
and declines the instruction (returns 0). -/
def decline_exec : hooklib_exec_fn Nat :=
  fun x cycles _ _ => { ext := x + 1, CPU_Cycles := cycles, registers := scribble, ret := 0 }

/-- A `notify` that overwrites the whole snapshot and counts its calls. -/
def scribble_notify : hooklib_notify_fn Nat :=
  fun x cycles _ => { ext := x + 100, CPU_Cycles := cycles, registers := scribble }

/-- An `init` that records in the plugin state that it ran. -/
def stub_init : hooklib_init_fn Nat := fun x _ => x + 10000

/-- An audio callback that records its three arguments in the plugin state. -/
def stub_audio_cb : hydra_audio_cb Nat :=
  fun x ctx stream len => x + ctx + stream + len.toNat

/-- A hydra `init` that registers `stub_audio_cb` with context 5. -/
def stub_hydra_init : hydra_machine_init_fn Nat :=
  fun x _ _ => { ext := x + 10000, audio := { cb := some stub_audio_cb, ctx := 5 } }

/-- A module exporting all three hooklib symbols. -/
def stubModule : HookModule Nat :=
  { hooklib_init := some stub_init, hooklib_exec := some stub_exec,
    hooklib_notify := some scribble_notify }

/-- A module that lacks the symbol `hooklib_exec`. -/
def noExecModule : HookModule Nat :=
  { hooklib_init := some stub_init, hooklib_exec := none,
    hooklib_notify := some scribble_notify }

/-- A module exporting all three hydra symbols. -/
def stubHydraModule : HydraModule Nat :=
  { hydra_machine_init := some stub_hydra_init, hydra_machine_exec := some stub_exec,
    hydra_machine_notify := some scribble_notify }

/-- A module that lacks the symbol `hydra_machine_exec`. -/
def noExecHydraModule : HydraModule Nat :=
  { hydra_machine_init := some stub_hydra_init, hydra_machine_exec := none,
    hydra_machine_notify := some scribble_notify }

/-- A loader that knows one path (the one-character path `a`) for `stubModule`, one
(`b`) for `noExecModule`, and nothing else. -/
def stub_dlopen (path : String) : Option (HookModule Nat) :=
  if path = String.mk ['a'] then some stubModule
  else if path = String.mk ['b'] then some noExecModule
  else none

/-- The hydra counterpart of `stub_dlopen`. -/
def stub_hydra_dlopen (path : String) : Option (HydraModule Nat) :=
  if path = String.mk ['a'] then some stubHydraModule
  else if path = String.mk ['b'] then some noExecHydraModule
  else none

/-- The zero-initialised static `hook[1]`: nothing loaded, all pointers null. -/
def hooklib.unbound {X : Type} : hooklib X :=
  { lib := none, init := none, exec := none, notify := none, machine := ⟨.zero, .zero⟩ }

/-- The zero-initialised static `hydra[1]`. -/
def hydra.unbound {X : Type} : hydra X :=
  { lib := none, init := none, exec := none, notify := none, machine := ⟨.zero, .zero⟩,
    audio := { cb := none, ctx := 0 } }

/-- A host state in real mode with three cycles left and seven interrupts serviced. -/
def sampleHost : Host Nat :=
  { regs := sampleRegs, InterruptCount := 7, CPU_Cycles := 3, ext := 0 }

/-- The state of hook.cpp at program start. -/
def hookStart : HookWorld Nat :=
  { hook := .unbound, hook_enable := false, host := sampleHost, log := [] }

/-- The state of hydra.cpp at program start. -/
def hydraStart : HydraWorld Nat :=
  { hydra := .unbound, hydra_enable := false, host := sampleHost, log := [] }

/-- A state of hook.cpp with a plugin bound whose `exec` is `e` and whose `notify` is
`scribble_notify`. -/
def hookBound (e : hooklib_exec_fn Nat) : HookWorld Nat :=
  { hook := { lib := some stubModule, init := some stub_init, exec := some e,
              notify := some scribble_notify,
              machine := bind_hardware ⟨.zero, .zero⟩ },
    hook_enable := true, host := sampleHost, log := [] }

/-- A state of hydra.cpp with a plugin bound whose `exec` is `e`, whose `notify` is
`scribble_notify`, and whose audio sink is `stub_audio_cb` with context 5. -/
def hydraBound (e : hooklib_exec_fn Nat) : HydraWorld Nat :=
  { hydra := { lib := some stubHydraModule, init := some stub_hydra_init, exec := some e,
               notify := some scribble_notify,
               machine := bind_hardware ⟨.zero, .zero⟩,
               audio := { cb := some stub_audio_cb, ctx := 5 } },
    hydra_enable := true, host := sampleHost, log := [] }

/-- Whether the loader can open the module and find all three hooklib symbols. -/
def HookModule.resolved {X : Type} : Option (HookModule X) → Bool
  | none => false
  | some m => m.hooklib_init.isSome && m.hooklib_exec.isSome && m.hooklib_notify.isSome

/-- Whether the loader can open the module and find all three hydra symbols. -/
def HydraModule.resolved {X : Type} : Option (HydraModule X) → Bool
  | none => false
  | some m =>
    m.hydra_machine_init.isSome && m.hydra_machine_exec.isSome &&
      m.hydra_machine_notify.isSome

/-! ## Traces of the instruction loop -/

/-- Whether every `exec` event of a trace comes directly after a `notify` event; `prev`
tells whether the event just before the trace was a `notify`. -/
def execs_follow_notify : Bool → List Event → Bool
  | _, [] => true
  | prev, .exec _ _ :: rest => prev && execs_follow_notify false rest
  | _, .notify _ :: rest => execs_follow_notify true rest
  | _, .init _ :: rest => execs_follow_notify false rest
  | _, .audio _ _ _ :: rest => execs_follow_notify false rest

/-- Number of `exec` invocations in a trace. -/
def count_exec : List Event → Nat
  | [] => 0
  | .exec _ _ :: rest => count_exec rest + 1
  | _ :: rest => count_exec rest

/-- Number of `notify` invocations in a trace. -/
def count_notify : List Event → Nat
  | [] => 0
  | .notify _ :: rest => count_notify rest + 1
  | _ :: rest => count_notify rest

/-- The traces one pass through the loop body can add: nothing, a notify, a notify and an
exec, or a notify, an exec and a second notify. -/
def boundary_trace : List Event → Bool
  | [] => true
  | [.notify _] => true
  | [.notify _, .exec _ _] => true
  | [.notify _, .exec _ _, .notify _] => true
  | _ => false

/-- The global state after one pass through the loop body. -/
def LoopStep.world {X : Type} : LoopStep X → CoreWorld X
  | .next w => w
  | .done o => o.world

/-- A `core` with every field zero. -/
def Core.zero : Core :=
  { opcode_index := 0, cseip := 0, base_ds := 0, base_ss := 0, base_val_ds := .es,
    rep_zero := false, prefixes := 0, ea_table := 0 }

/-- A host configuration for test runs: `CBRET_NONE` is 0, heavy debugging is compiled
out, `FillFlags` changes nothing, and every opcode is a one-byte instruction that falls
out of the `switch`. -/
def sampleEnv : CoreEnv Nat :=
  { CBRET_NONE := 0, MP_NONE := 0, debugCallback := 2,
    DEBUG_HeavyIsBreakpoint := fun st => (st, false),
    FillFlags := fun st => st,
    decode := fun st => ({ st with core.cseip := u32 (st.core.cseip + 1) }, .fallthrough) }

/-- The state of core_normal.cpp before `init_hook` has run: `hook[1]` is zero-initialised;
three cycles are left. -/
def coreUnbound : CoreWorld Nat :=
  { hook := .unbound,
    st := { host := sampleHost, core := .zero, last_prefix := 0, cycle_count := 0,
            code_big := false },
    log := [] }

/-- A state of core_normal.cpp with a plugin bound whose `exec` is `e` and whose `notify`
is `scribble_notify`. -/
def coreBound (e : hooklib_exec_fn Nat) : CoreWorld Nat :=
  { coreUnbound with
    hook := { lib := some stubModule, init := some stub_init, exec := some e,
              notify := some scribble_notify,
              machine := bind_hardware ⟨.zero, .zero⟩ } }

/-! ## Views of a pass through the loop -/

/-- The low 16 bits of the fourteen bridged host registers: of `eax` .. `eip`, of the
values of `cs`, `ds`, `es`, `ss`, and of the flags register. -/
def low16_fields (r : CPU_Regs) : hooklib_machine_registers :=
  { ax := r.eax % 65536, bx := r.ebx % 65536, cx := r.ecx % 65536, dx := r.edx % 65536,
    si := r.esi % 65536, di := r.edi % 65536, bp := r.ebp % 65536, sp := r.esp % 65536,
    ip := r.eip % 65536, cs := r.val_cs % 65536, ds := r.val_ds % 65536,
    es := r.val_es % 65536, ss := r.val_ss % 65536, flags := r.flags % 65536 }

/-- The state in which the attempt step of a pass through the loop body runs, given the
state `w` that the notify step at the top of the pass returned (core_normal.cpp:306-323 on
the path that reaches line 325): `CPU_Cycles` decremented, `core` set up, and whatever the
breakpoint test left. -/
def attempt_entry {X : Type} (env : CoreEnv X) (w : CoreWorld X) : CoreWorld X :=
  let w := { w with st.host.CPU_Cycles := w.st.host.CPU_Cycles - 1 }
  let w := { w with st := decode_setup env w.st }
  { w with st := (env.DEBUG_HeavyIsBreakpoint w.st).1 }

/-- The result of the breakpoint test of a pass (core_normal.cpp:318), given the state `w`
that the notify step at the top of the pass returned. -/
def breakpoint_hit {X : Type} (env : CoreEnv X) (w : CoreWorld X) : Bool :=
  let w := { w with st.host.CPU_Cycles := w.st.host.CPU_Cycles - 1 }
  let w := { w with st := decode_setup env w.st }
  (env.DEBUG_HeavyIsBreakpoint w.st).2

/-- The state the native decoder is entered with after the attempt step returned in state
`w`: `cycle_count` has been incremented (core_normal.cpp:329). -/
def decode_entry {X : Type} (w : CoreWorld X) : CoreState X :=
  { w.st with cycle_count := w.st.cycle_count + 1 }

/-- The state after the notify step at the top of the first pass of a run that starts in
`coreBound stub_exec`. -/
def claimedPassNotified : CoreWorld Nat := (notify_ip (coreBound stub_exec)).world

/-- The state after the attempt step of that pass, in which `stub_exec` claims the
boundary. -/
def claimedPassAttempted : CoreWorld Nat :=
  (attempt_hook (attempt_entry sampleEnv claimedPassNotified)).world

end DosboxHook

namespace DosboxHook

/-! ## The register bridge -/

theorem setLowWord_lowWord (d : Nat) : setLowWord d (u16 (lowWord d)) = d := by
  unfold setLowWord u16 lowWord
  omega

theorem lowWord_setLowWord (d v : Nat) : lowWord (setLowWord d v) = u16 v := by
  unfold setLowWord u16 lowWord
  omega

theorem u16_idem (v : Nat) : u16 (u16 v) = u16 v := by
  unfold u16
  omega

theorem u16_lt (v : Nat) : u16 v < 65536 := by
  unfold u16
  omega

theorem u32_seg_base (v : Nat) : u32 (u16 v * 16) = u16 v * 16 := by
  unfold u32 u16
  omega

/-- Closed form of `cpu_state_load (cpu_state_dump r cpu) r`. -/
theorem load_dump_eq (r : CPU_Regs) (cpu : hooklib_machine_registers) :
    cpu_state_load (cpu_state_dump r cpu) r =
      { r with
        flags := u16 r.flags,
        val_cs := u16 r.val_cs, phys_cs := u16 r.val_cs * 16,
        val_ds := u16 r.val_ds, phys_ds := u16 r.val_ds * 16,
        val_es := u16 r.val_es, phys_es := u16 r.val_es * 16,
        val_ss := u16 r.val_ss, phys_ss := u16 r.val_ss * 16 } := by
  cases r
  simp only [cpu_state_load, cpu_state_dump, SegSet16, SegValue, reg_ax, reg_bx, reg_cx,
    reg_dx, reg_si, reg_di, reg_bp, reg_sp, reg_ip, reg_flags, setLowWord_lowWord,
    u16_idem, u32_seg_base]

/-- C1 as stated fails: on the well-formed register state `idFlagRegs` (flags bit 21 set)
a dump followed by a load from the unmodified snapshot changes the host register file;
the same happens on `flatDsRegs`, whose `ds` base is not `value << 4`. -/
theorem C1_roundtrip_counterexample :
    idFlagRegs.wf ∧
    cpu_state_load (cpu_state_dump idFlagRegs .zero) idFlagRegs ≠ idFlagRegs ∧
    (cpu_state_load (cpu_state_dump idFlagRegs .zero) idFlagRegs).flags = 0x0202 ∧
    flatDsRegs.wf ∧
    cpu_state_load (cpu_state_dump flatDsRegs .zero) flatDsRegs ≠ flatDsRegs ∧
    (cpu_state_load (cpu_state_dump flatDsRegs .zero) flatDsRegs).phys_ds = 0x20000 := by
  decide

/-- C1 (amended): for every well-formed host register state `r` and any previous snapshot
contents, dump followed by load leaves the general registers (all 32 bits), the
instruction pointer, `fs`/`gs` and the four segment values as they were, reduces the
flags register to its low 16 bits and sets the bases of `cs`, `ds`, `es`, `ss` to
`value << 4`; hence the round trip is the identity exactly on the states whose flags fit
in 16 bits and whose four bases are `value << 4`. -/
theorem C1_roundtrip_real_mode (r : CPU_Regs) (cpu : hooklib_machine_registers)
    (hwf : r.wf) :
    cpu_state_load (cpu_state_dump r cpu) r =
      { r with
        flags := r.flags % 65536,
        phys_cs := r.val_cs * 16, phys_ds := r.val_ds * 16,
        phys_es := r.val_es * 16, phys_ss := r.val_ss * 16 } ∧
    (cpu_state_load (cpu_state_dump r cpu) r = r ↔ r.bridged16) := by
  rw [load_dump_eq]
  obtain ⟨-, -, -, -, -, -, -, -, -, -, hes, hcs, hss, hds, -⟩ := hwf
  cases r
  simp only [u16, CPU_Regs.bridged16, CPU_Regs.mk.injEq] at *
  rw [Nat.mod_eq_of_lt hes, Nat.mod_eq_of_lt hcs, Nat.mod_eq_of_lt hss, Nat.mod_eq_of_lt hds]
  refine ⟨by simp, ?_⟩
  constructor
  · intro h
    simp only [true_and, and_true] at h
    omega
  · intro h
    simp only [true_and, and_true]
    omega

/-- Witness for C1: the real-mode state `sampleRegs` is well formed, in bridged form, and
is reproduced bit for bit by the round trip. -/
theorem C1_roundtrip_real_mode_witness :
    sampleRegs.wf ∧ sampleRegs.bridged16 ∧
    cpu_state_load (cpu_state_dump sampleRegs .zero) sampleRegs = sampleRegs :=
  ⟨by decide, by decide,
    (C1_roundtrip_real_mode sampleRegs .zero (by decide)).2.mpr (by decide)⟩

/-! ## The attempt step -/

/-- After a load, the fourteen host fields read back as the loaded snapshot, reduced to
16 bits. -/
theorem host_fields_load (cpu : hooklib_machine_registers) (r : CPU_Regs) :
    host_fields (cpu_state_load cpu r) = cpu.stored := by
  cases r
  simp only [host_fields, cpu_state_load, SegSet16, SegValue, reg_ax, reg_bx, reg_cx,
    reg_dx, reg_si, reg_di, reg_bp, reg_sp, reg_ip, reg_flags, lowWord_setLowWord,
    u16_idem, hooklib_machine_registers.stored]

theorem stored_idem (m : hooklib_machine_registers) : m.stored.stored = m.stored := by
  simp only [hooklib_machine_registers.stored, u16_idem]

theorem dump_stored (r : CPU_Regs) (cpu : hooklib_machine_registers) :
    (cpu_state_dump r cpu).stored = cpu_state_dump r cpu := by
  simp only [hooklib_machine_registers.stored, cpu_state_dump, u16_idem]

/-- C2: when `exec` returns a nonzero value, `HOOK_Attempt` and `HYDRA_Attempt` return
that value and afterwards each of the fourteen host register fields equals the field of
the stored snapshot, which is what the plugin left there; for the stub `exec` (sets
`ax = 0xABCD`, echoes the rest, returns true) the host `ax` is `0xABCD` and the other
thirteen fields are the echoed (dumped) values. -/
theorem C2_attempt_loads_snapshot :
    (∀ (X : Type) (w : HookWorld X) (exec : hooklib_exec_fn X),
      w.hook_enable = true → w.hook.exec = some exec →
      (call_exec exec w.host
        (cpu_state_dump w.host.regs w.hook.machine.registers)).ret ≠ 0 →
      ∃ w', HOOK_Attempt w = .ret w' (call_exec exec w.host
              (cpu_state_dump w.host.regs w.hook.machine.registers)).ret ∧
        w'.hook.machine.registers = (call_exec exec w.host
              (cpu_state_dump w.host.regs w.hook.machine.registers)).registers.stored ∧
        host_fields w'.host.regs = w'.hook.machine.registers) ∧
    (∀ (X : Type) (w : HydraWorld X) (exec : hooklib_exec_fn X),
      w.hydra_enable = true → w.hydra.exec = some exec →
      (call_exec exec w.host
        (cpu_state_dump w.host.regs w.hydra.machine.registers)).ret ≠ 0 →
      ∃ w', HYDRA_Attempt w = .ret w' (call_exec exec w.host
              (cpu_state_dump w.host.regs w.hydra.machine.registers)).ret ∧
        w'.hydra.machine.registers = (call_exec exec w.host
              (cpu_state_dump w.host.regs w.hydra.machine.registers)).registers.stored ∧
        host_fields w'.host.regs = w'.hydra.machine.registers) ∧
    (∀ (X : Type) (w : HookWorld X),
      w.hook_enable = true → w.hook.exec = some stub_exec →
      ∃ w', HOOK_Attempt w = .ret w' 1 ∧
        reg_ax w'.host.regs = 0xABCD ∧
        host_fields w'.host.regs =
          { cpu_state_dump w.host.regs w.hook.machine.registers with ax := 0xABCD }) ∧
    (∀ (X : Type) (w : HydraWorld X),
      w.hydra_enable = true → w.hydra.exec = some stub_exec →
      ∃ w', HYDRA_Attempt w = .ret w' 1 ∧
        reg_ax w'.host.regs = 0xABCD ∧
        host_fields w'.host.regs =
          { cpu_state_dump w.host.regs w.hydra.machine.registers with ax := 0xABCD }) := by
  refine ⟨?_, ?_, ?_, ?_⟩
  · intro X w exec hen hex hret
    simp only [HOOK_Attempt, hen, hex, Bool.not_true, Bool.false_eq_true, ↓reduceIte]
    rw [if_pos hret]
    exact ⟨_, rfl, rfl, by simp only [host_fields_load, stored_idem]⟩
  · intro X w exec hen hex hret
    simp only [HYDRA_Attempt, hen, hex, Bool.not_true, Bool.false_eq_true, ↓reduceIte]
    rw [if_pos hret]
    exact ⟨_, rfl, rfl, by simp only [host_fields_load, stored_idem]⟩
  · intro X w hen hex
    simp only [HOOK_Attempt, hen, hex, Bool.not_true, Bool.false_eq_true, ↓reduceIte]
    rw [if_pos (by simp [call_exec, stub_exec])]
    refine ⟨_, rfl, ?_, ?_⟩
    · simp only [cpu_state_load, SegSet16, reg_ax, lowWord_setLowWord, call_exec, stub_exec,
        hooklib_machine_registers.stored]
      rfl
    · simp only [host_fields_load, stored_idem, call_exec, stub_exec]
      simp only [hooklib_machine_registers.stored, cpu_state_dump, u16_idem]
      rfl
  · intro X w hen hex
    simp only [HYDRA_Attempt, hen, hex, Bool.not_true, Bool.false_eq_true, ↓reduceIte]
    rw [if_pos (by simp [call_exec, stub_exec])]
    refine ⟨_, rfl, ?_, ?_⟩
    · simp only [cpu_state_load, SegSet16, reg_ax, lowWord_setLowWord, call_exec, stub_exec,
        hooklib_machine_registers.stored]
      rfl
    · simp only [host_fields_load, stored_idem, call_exec, stub_exec]
      simp only [hooklib_machine_registers.stored, cpu_state_dump, u16_idem]
      rfl

/-- Witness for C2: on the bound sample state with the stub plugin, one `HOOK_Attempt`
returns 1 and leaves `ax = 0xABCD` with the other thirteen fields as dumped. -/
theorem C2_attempt_loads_snapshot_witness :
    ∃ w', HOOK_Attempt (hookBound stub_exec) = .ret w' 1 ∧
      reg_ax w'.host.regs = 0xABCD ∧
      host_fields w'.host.regs =
        { ax := 0xABCD, bx := 0xBEEF, cx := 0x0003, dx := 0x0004, si := 0x0100,
          di := 0x0200, bp := 0xFFF0, sp := 0xFFEE, ip := 0x0100, cs := 0x1000,
          ds := 0x2000, es := 0x2000, ss := 0x3000, flags := 0x0202 } :=
  C2_attempt_loads_snapshot.2.2.1 Nat (hookBound stub_exec) rfl rfl

/-- C3: with the enable flag false, `HOOK_Attempt` and `HYDRA_Attempt` return 0 and the
whole state (host registers, stored snapshot, plugin state, trace of plugin invocations)
is the one before the call, whatever `InterruptCount` is. -/
theorem C3_attempt_disabled :
    (∀ (X : Type) (w : HookWorld X), w.hook_enable = false → HOOK_Attempt w = .ret w 0) ∧
    (∀ (X : Type) (w : HydraWorld X), w.hydra_enable = false →
      HYDRA_Attempt w = .ret w 0) := by
  constructor
  · intro X w hen
    simp only [HOOK_Attempt, hen, Bool.not_false, ↓reduceIte]
  · intro X w hen
    simp only [HYDRA_Attempt, hen, Bool.not_false, ↓reduceIte]

/-- Witness for C3: at program start, with any interrupt count, both attempts return 0 and
change nothing. -/
theorem C3_attempt_disabled_witness :
    HOOK_Attempt { hookStart with host.InterruptCount := 123456 } =
      .ret { hookStart with host.InterruptCount := 123456 } 0 ∧
    HYDRA_Attempt hydraStart = .ret hydraStart 0 :=
  ⟨C3_attempt_disabled.1 Nat _ rfl, C3_attempt_disabled.2 Nat _ rfl⟩

/-- C4: when a plugin is bound and `exec` returns zero, `HOOK_Attempt`, `HYDRA_Attempt`
and `attempt_hook` return 0 with the host register file unchanged, whatever `exec` wrote
into the snapshot; `exec` was called once, on the dumped registers. -/
theorem C4_attempt_declined :
    (∀ (X : Type) (w : HookWorld X) (exec : hooklib_exec_fn X),
      w.hook_enable = true → w.hook.exec = some exec →
      (call_exec exec w.host
        (cpu_state_dump w.host.regs w.hook.machine.registers)).ret = 0 →
      ∃ w', HOOK_Attempt w = .ret w' 0 ∧ w'.host.regs = w.host.regs ∧
        w'.log = w.log ++ [Event.exec
          (cpu_state_dump w.host.regs w.hook.machine.registers) w.host.InterruptCount]) ∧
    (∀ (X : Type) (w : HydraWorld X) (exec : hooklib_exec_fn X),
      w.hydra_enable = true → w.hydra.exec = some exec →
      (call_exec exec w.host
        (cpu_state_dump w.host.regs w.hydra.machine.registers)).ret = 0 →
      ∃ w', HYDRA_Attempt w = .ret w' 0 ∧ w'.host.regs = w.host.regs ∧
        w'.log = w.log ++ [Event.exec
          (cpu_state_dump w.host.regs w.hydra.machine.registers) w.host.InterruptCount]) ∧
    (∀ (X : Type) (w : CoreWorld X) (exec : hooklib_exec_fn X),
      w.hook.exec = some exec →
      (call_exec exec w.st.host
        (cpu_state_dump w.st.host.regs w.hook.machine.registers)).ret = 0 →
      ∃ w', attempt_hook w = .ret w' 0 ∧ w'.st.host.regs = w.st.host.regs ∧
        w'.log = w.log ++ [Event.exec
          (cpu_state_dump w.st.host.regs w.hook.machine.registers)
          w.st.host.InterruptCount]) := by
  refine ⟨?_, ?_, ?_⟩
  · intro X w exec hen hex hret
    simp only [HOOK_Attempt, hen, hex, Bool.not_true, Bool.false_eq_true, ↓reduceIte]
    rw [if_neg (not_not.mpr hret), hret]
    exact ⟨_, rfl, rfl, rfl⟩
  · intro X w exec hen hex hret
    simp only [HYDRA_Attempt, hen, hex, Bool.not_true, Bool.false_eq_true, ↓reduceIte]
    rw [if_neg (not_not.mpr hret), hret]
    exact ⟨_, rfl, rfl, rfl⟩
  · intro X w exec hex hret
    simp only [attempt_hook, hex]
    rw [if_neg (not_not.mpr hret), hret]
    exact ⟨_, rfl, rfl, rfl⟩

/-- Witness for C4: `decline_exec` overwrites all fourteen snapshot fields and returns 0;
the host registers after `HOOK_Attempt` are still `sampleRegs`. -/
theorem C4_attempt_declined_witness :
    ∃ w', HOOK_Attempt (hookBound decline_exec) = .ret w' 0 ∧ w'.host.regs = sampleRegs ∧
      w'.log = [Event.exec (cpu_state_dump sampleRegs .zero) 7] :=
  C4_attempt_declined.1 Nat (hookBound decline_exec) decline_exec rfl rfl rfl

/-! ## Host-address resolution -/

/-- C5: each of the three copies of `mem_hostaddr` returns `MemBase + addr` exactly when
`0x8000 <= addr < 0x9F000` and fails through `FAIL` for every other address; `0x8000`
and `0x9EFFF` succeed, `0x7FFF` and `0x9F000` fail. -/
theorem C5_mem_hostaddr_window (MemBase addr : Nat) :
    (hooklib_machine_mem_hostaddr MemBase addr = .ok (MemBase + addr) ↔
      (0x8000 ≤ addr ∧ addr < 0x9f000)) ∧
    (hooklib_machine_mem_hostaddr MemBase addr = .error (.no_host_address addr) ↔
      ¬ (0x8000 ≤ addr ∧ addr < 0x9f000)) ∧
    hydra_machine_mem_hostaddr MemBase addr = hooklib_machine_mem_hostaddr MemBase addr ∧
    core_normal_mem_hostaddr MemBase addr = hooklib_machine_mem_hostaddr MemBase addr ∧
    hooklib_machine_mem_hostaddr MemBase 0x8000 = .ok (MemBase + 0x8000) ∧
    hooklib_machine_mem_hostaddr MemBase 0x9EFFF = .ok (MemBase + 0x9EFFF) ∧
    hooklib_machine_mem_hostaddr MemBase 0x7FFF = .error (.no_host_address 0x7FFF) ∧
    hooklib_machine_mem_hostaddr MemBase 0x9F000 = .error (.no_host_address 0x9F000) := by
  refine ⟨?_, ?_, rfl, rfl, ?_, ?_, ?_, ?_⟩
  · unfold hooklib_machine_mem_hostaddr
    by_cases h : 0x8000 ≤ addr ∧ addr < 0x9f000
    · simp only [h, and_self, ↓reduceIte]
    · simp only [h, ↓reduceIte, iff_false]
      intro hc
      cases hc
  · unfold hooklib_machine_mem_hostaddr
    by_cases h : 0x8000 ≤ addr ∧ addr < 0x9f000
    · simp only [h, and_self, ↓reduceIte, not_true_eq_false, iff_false]
      intro hc
      cases hc
    · simp only [h, ↓reduceIte, not_false_eq_true]
  · simp [hooklib_machine_mem_hostaddr]
  · simp [hooklib_machine_mem_hostaddr]
  · simp [hooklib_machine_mem_hostaddr]
  · simp [hooklib_machine_mem_hostaddr]

/-! ## The notify step -/

/-- C8: with a plugin bound, `HOOK_Notify_Ip` and `HYDRA_Notify_Ip` dump the registers,
call `notify` exactly once on the dumped snapshot, and return with the host register file
as it was, whatever `notify` wrote into the snapshot; with the enable flag false they
return at once and the whole state is unchanged. -/
theorem C8_notify_observation_only :
    (∀ (X : Type) (w : HookWorld X) (notify : hooklib_notify_fn X),
      w.hook_enable = true → w.hook.notify = some notify →
      ∃ w', HOOK_Notify_Ip w = .ret w' () ∧ w'.host.regs = w.host.regs ∧
        w'.log = w.log ++
          [Event.notify (cpu_state_dump w.host.regs w.hook.machine.registers)] ∧
        w'.hook.machine.registers = (call_notify notify w.host
          (cpu_state_dump w.host.regs w.hook.machine.registers)).registers.stored) ∧
    (∀ (X : Type) (w : HydraWorld X) (notify : hooklib_notify_fn X),
      w.hydra_enable = true → w.hydra.notify = some notify →
      ∃ w', HYDRA_Notify_Ip w = .ret w' () ∧ w'.host.regs = w.host.regs ∧
        w'.log = w.log ++
          [Event.notify (cpu_state_dump w.host.regs w.hydra.machine.registers)] ∧
        w'.hydra.machine.registers = (call_notify notify w.host
          (cpu_state_dump w.host.regs w.hydra.machine.registers)).registers.stored) ∧
    (∀ (X : Type) (w : HookWorld X), w.hook_enable = false →
      HOOK_Notify_Ip w = .ret w ()) ∧
    (∀ (X : Type) (w : HydraWorld X), w.hydra_enable = false →
      HYDRA_Notify_Ip w = .ret w ()) := by
  refine ⟨?_, ?_, ?_, ?_⟩
  · intro X w notify hen hno
    simp only [HOOK_Notify_Ip, hen, hno, Bool.not_true, Bool.false_eq_true, ↓reduceIte]
    exact ⟨_, rfl, rfl, rfl, rfl⟩
  · intro X w notify hen hno
    simp only [HYDRA_Notify_Ip, hen, hno, Bool.not_true, Bool.false_eq_true, ↓reduceIte]
    exact ⟨_, rfl, rfl, rfl, rfl⟩
  · intro X w hen
    simp only [HOOK_Notify_Ip, hen, Bool.not_false, ↓reduceIte]
  · intro X w hen
    simp only [HYDRA_Notify_Ip, hen, Bool.not_false, ↓reduceIte]

/-- Witness for C8: `scribble_notify` overwrites all fourteen snapshot fields; after
`HOOK_Notify_Ip` the host registers are still `sampleRegs`, one notify event was added,
and the stored snapshot is the scribbled one. -/
theorem C8_notify_observation_only_witness :
    ∃ w', HOOK_Notify_Ip (hookBound stub_exec) = .ret w' () ∧ w'.host.regs = sampleRegs ∧
      w'.log = [Event.notify (cpu_state_dump sampleRegs .zero)] ∧
      w'.hook.machine.registers = scribble :=
  C8_notify_observation_only.1 Nat (hookBound stub_exec) scribble_notify rfl rfl

/-! ## The audio bridge -/

/-- C9: with a registered sink `cb`, `HYDRA_AudioCallback(stream, len)` calls `cb` exactly
once, with `(ctx, stream, len)` for the registered `ctx`, and returns 1; with no sink it
returns 0 and leaves the whole state unchanged; each for every `stream` and `len`.  So it
returns 1 exactly when a sink is registered. -/
theorem C9_audio_callback :
    (∀ (X : Type) (w : HydraWorld X) (cb : hydra_audio_cb X) (stream : Nat) (len : Int),
      w.hydra.audio.cb = some cb →
      HYDRA_AudioCallback stream len w =
        .ret { w with
          log := w.log ++ [Event.audio w.hydra.audio.ctx stream len],
          host.ext := cb w.host.ext w.hydra.audio.ctx stream len } 1) ∧
    (∀ (X : Type) (w : HydraWorld X) (stream : Nat) (len : Int),
      w.hydra.audio.cb = none → HYDRA_AudioCallback stream len w = .ret w 0) ∧
    (∀ (X : Type) (w : HydraWorld X) (stream : Nat) (len : Int),
      (∃ w', HYDRA_AudioCallback stream len w = .ret w' 1) ↔
        w.hydra.audio.cb.isSome = true) := by
  refine ⟨?_, ?_, ?_⟩
  · intro X w cb stream len hcb
    simp only [HYDRA_AudioCallback, hcb]
  · intro X w stream len hcb
    simp only [HYDRA_AudioCallback, hcb]
  · intro X w stream len
    unfold HYDRA_AudioCallback
    cases hcb : w.hydra.audio.cb with
    | none =>
      simp only [Option.isSome_none, Bool.false_eq_true, iff_false, not_exists]
      intro w' hc
      cases hc
    | some cb =>
      simp only [Option.isSome_some, iff_true]
      exact ⟨_, rfl⟩

/-- Witness for C9: with `stub_audio_cb` registered under context 5, a request for 4096
bytes at address 1000 returns 1 after one callback with `(5, 1000, 4096)`; with no sink,
requests of length 0, 1 and 4096 return 0 and change nothing. -/
theorem C9_audio_callback_witness :
    HYDRA_AudioCallback 1000 4096 (hydraBound stub_exec) =
      .ret { hydraBound stub_exec with
        log := [Event.audio 5 1000 4096],
        host.ext := 5 + 1000 + 4096 } 1 ∧
    HYDRA_AudioCallback 1000 0 hydraStart = .ret hydraStart 0 ∧
    HYDRA_AudioCallback 1000 1 hydraStart = .ret hydraStart 0 ∧
    HYDRA_AudioCallback 1000 4096 hydraStart = .ret hydraStart 0 :=
  ⟨C9_audio_callback.1 Nat (hydraBound stub_exec) stub_audio_cb 1000 4096 rfl,
   C9_audio_callback.2.1 Nat hydraStart 1000 0 rfl,
   C9_audio_callback.2.1 Nat hydraStart 1000 1 rfl,
   C9_audio_callback.2.1 Nat hydraStart 1000 4096 rfl⟩

/-! ## The loader -/

/-- C6: from a state with the enable flag false, if the module cannot be opened or one of
the three symbols is missing, `HOOK_Init` / `HYDRA_Init` aborts through `FAIL` with the
flag still false, no entry point invoked and the host state untouched, so that an
`Attempt` on the state left behind returns 0; if all three symbols are resolved, the three
pointers are bound, `init` is called once with the filled hardware table (all nine
adapters non-null, `ctx` null), and the call returns with the flag true. -/
theorem C6_init_all_or_nothing :
    (∀ (X : Type) (dlopen : String → Option (HookModule X)) (libpath : String)
        (w : HookWorld X),
      w.hook_enable = false → HookModule.resolved (dlopen libpath) = false →
      ∃ w' msg, HOOK_Init dlopen libpath w = .fail w' msg ∧ w'.hook_enable = false ∧
        w'.log = w.log ∧ w'.host = w.host ∧ HOOK_Attempt w' = .ret w' 0) ∧
    (∀ (X : Type) (dlopen : String → Option (HookModule X)) (libpath : String)
        (w : HookWorld X) (m : HookModule X) (init : hooklib_init_fn X)
        (exec : hooklib_exec_fn X) (notify : hooklib_notify_fn X),
      dlopen libpath = some m → m.hooklib_init = some init →
      m.hooklib_exec = some exec → m.hooklib_notify = some notify →
      ∃ w', HOOK_Init dlopen libpath w = .ret w' () ∧ w'.hook_enable = true ∧
        w'.hook.init = some init ∧ w'.hook.exec = some exec ∧
        w'.hook.notify = some notify ∧
        w'.hook.machine = bind_hardware ⟨.zero, .zero⟩ ∧
        w'.log = w.log ++ [Event.init (bind_hardware ⟨.zero, .zero⟩).hardware] ∧
        w'.host = { w.host with
          ext := init w.host.ext (bind_hardware ⟨.zero, .zero⟩).hardware }) ∧
    (∀ (X : Type) (dlopen : String → Option (HydraModule X)) (libpath : String)
        (w : HydraWorld X),
      w.hydra_enable = false → HydraModule.resolved (dlopen libpath) = false →
      ∃ w' msg, HYDRA_Init dlopen libpath w = .fail w' msg ∧ w'.hydra_enable = false ∧
        w'.log = w.log ∧ w'.host = w.host ∧ w'.hydra.audio = w.hydra.audio ∧
        HYDRA_Attempt w' = .ret w' 0) ∧
    (∀ (X : Type) (dlopen : String → Option (HydraModule X)) (libpath : String)
        (w : HydraWorld X) (m : HydraModule X) (init : hydra_machine_init_fn X)
        (exec : hooklib_exec_fn X) (notify : hooklib_notify_fn X),
      dlopen libpath = some m → m.hydra_machine_init = some init →
      m.hydra_machine_exec = some exec → m.hydra_machine_notify = some notify →
      ∃ w', HYDRA_Init dlopen libpath w = .ret w' () ∧ w'.hydra_enable = true ∧
        w'.hydra.init = some init ∧ w'.hydra.exec = some exec ∧
        w'.hydra.notify = some notify ∧
        w'.hydra.machine = bind_hardware ⟨.zero, .zero⟩ ∧
        w'.log = w.log ++ [Event.init (bind_hardware ⟨.zero, .zero⟩).hardware] ∧
        w'.host = { w.host with
          ext := (init w.host.ext (bind_hardware ⟨.zero, .zero⟩).hardware
            w.hydra.audio).ext } ∧
        w'.hydra.audio = (init w.host.ext (bind_hardware ⟨.zero, .zero⟩).hardware
            w.hydra.audio).audio) ∧
    (bind_hardware ⟨.zero, .zero⟩).hardware =
      { ctx := 0, mem_hostaddr := some .mem_hostaddr, mem_read8 := some .mem_read8,
        mem_read16 := some .mem_read16, mem_write8 := some .mem_write8,
        mem_write16 := some .mem_write16, io_in8 := some .io_in8,
        io_in16 := some .io_in16, io_out8 := some .io_out8,
        io_out16 := some .io_out16 } := by
  refine ⟨?_, ?_, ?_, ?_, rfl⟩
  · intro X dlopen libpath w hen hres
    have hatt : ∀ v : HookWorld X, v.hook_enable = false → HOOK_Attempt v = .ret v 0 := by
      intro v hv
      simp only [HOOK_Attempt, hv, Bool.not_false, ↓reduceIte]
    unfold HOOK_Init
    cases hlib : dlopen libpath with
    | none => exact ⟨_, _, rfl, hen, rfl, rfl, hatt _ hen⟩
    | some m =>
      rw [hlib] at hres
      cases hi : m.hooklib_init with
      | none => simp only [hi]; exact ⟨_, _, rfl, hen, rfl, rfl, hatt _ hen⟩
      | some init =>
        cases he : m.hooklib_exec with
        | none => simp only [hi, he]; exact ⟨_, _, rfl, hen, rfl, rfl, hatt _ hen⟩
        | some exec =>
          cases hn : m.hooklib_notify with
          | none => simp only [hi, he, hn]; exact ⟨_, _, rfl, hen, rfl, rfl, hatt _ hen⟩
          | some notify => simp [HookModule.resolved, hi, he, hn] at hres
  · intro X dlopen libpath w m init exec notify hlib hi he hn
    simp only [HOOK_Init, hlib, hi, he, hn]
    exact ⟨_, rfl, rfl, rfl, rfl, rfl, rfl, rfl, rfl⟩
  · intro X dlopen libpath w hen hres
    have hatt : ∀ v : HydraWorld X, v.hydra_enable = false →
        HYDRA_Attempt v = .ret v 0 := by
      intro v hv
      simp only [HYDRA_Attempt, hv, Bool.not_false, ↓reduceIte]
    unfold HYDRA_Init
    cases hlib : dlopen libpath with
    | none => exact ⟨_, _, rfl, hen, rfl, rfl, rfl, hatt _ hen⟩
    | some m =>
      rw [hlib] at hres
      cases hi : m.hydra_machine_init with
      | none => simp only [hi]; exact ⟨_, _, rfl, hen, rfl, rfl, rfl, hatt _ hen⟩
      | some init =>
        cases he : m.hydra_machine_exec with
        | none => simp only [hi, he]; exact ⟨_, _, rfl, hen, rfl, rfl, rfl, hatt _ hen⟩
        | some exec =>
          cases hn : m.hydra_machine_notify with
          | none =>
            simp only [hi, he, hn]; exact ⟨_, _, rfl, hen, rfl, rfl, rfl, hatt _ hen⟩
          | some notify => simp [HydraModule.resolved, hi, he, hn] at hres
  · intro X dlopen libpath w m init exec notify hlib hi he hn
    simp only [HYDRA_Init, hlib, hi, he, hn]
    exact ⟨_, rfl, rfl, rfl, rfl, rfl, rfl, rfl, rfl, rfl⟩

/-- Witness for C6: loading a module without `hooklib_exec` at program start aborts with
the flag false and an empty trace, and an attempt on the state left behind returns 0;
loading the complete stub module returns with the flag true after one `init` call. -/
theorem C6_init_all_or_nothing_witness :
    (∃ w' msg, HOOK_Init stub_dlopen (String.mk ['b']) hookStart = .fail w' msg ∧
      w'.hook_enable = false ∧ w'.log = hookStart.log ∧ w'.host = hookStart.host ∧
      HOOK_Attempt w' = .ret w' 0) ∧
    (∃ w', HOOK_Init stub_dlopen (String.mk ['a']) hookStart = .ret w' () ∧
      w'.hook_enable = true ∧ w'.hook.init = some stub_init ∧
      w'.hook.exec = some stub_exec ∧ w'.hook.notify = some scribble_notify ∧
      w'.hook.machine = bind_hardware ⟨.zero, .zero⟩ ∧
      w'.log = hookStart.log ++ [Event.init (bind_hardware ⟨.zero, .zero⟩).hardware] ∧
      w'.host = { hookStart.host with
        ext := stub_init hookStart.host.ext (bind_hardware ⟨.zero, .zero⟩).hardware }) :=
  ⟨C6_init_all_or_nothing.1 Nat stub_dlopen (String.mk ['b']) hookStart rfl (by decide),
   C6_init_all_or_nothing.2.1 Nat stub_dlopen (String.mk ['a']) hookStart stubModule
     stub_init stub_exec scribble_notify rfl rfl rfl rfl⟩

/-! ## The instruction loop -/

theorem notify_ip_cases {X : Type} (w : CoreWorld X) :
    (∃ w', notify_ip w = .crash w' ∧ w'.log = w.log) ∨
    (∃ w' m, notify_ip w = .ret w' () ∧ w'.log = w.log ++ [Event.notify m]) := by
  cases h : w.hook.notify with
  | none =>
    refine Or.inl ?_
    simp only [notify_ip, h]
    exact ⟨_, rfl, rfl⟩
  | some f =>
    refine Or.inr ?_
    simp only [notify_ip, h]
    exact ⟨_, _, rfl, rfl⟩

theorem attempt_hook_cases {X : Type} (w : CoreWorld X) :
    (∃ w', attempt_hook w = .crash w' ∧ w'.log = w.log) ∨
    (∃ w' v m ic, attempt_hook w = .ret w' v ∧ w'.log = w.log ++ [Event.exec m ic]) := by
  cases h : w.hook.exec with
  | none =>
    refine Or.inl ?_
    simp only [attempt_hook, h]
    exact ⟨_, rfl, rfl⟩
  | some f =>
    refine Or.inr ?_
    simp only [attempt_hook, h]
    split
    · exact ⟨_, _, _, _, rfl, rfl⟩
    · exact ⟨_, _, _, _, rfl, rfl⟩

theorem notify_ip_crash_log {X : Type} {w w' : CoreWorld X}
    (h : notify_ip w = .crash w') : w'.log = w.log := by
  rcases notify_ip_cases w with ⟨w1, h1, hl⟩ | ⟨w1, m, h1, _⟩
  · rw [h1] at h; cases h; exact hl
  · rw [h1] at h; cases h

theorem notify_ip_ret_log {X : Type} {w w' : CoreWorld X} {u : Unit}
    (h : notify_ip w = .ret w' u) : ∃ m, w'.log = w.log ++ [Event.notify m] := by
  rcases notify_ip_cases w with ⟨w1, h1, _⟩ | ⟨w1, m, h1, hl⟩
  · rw [h1] at h; cases h
  · rw [h1] at h; cases h; exact ⟨m, hl⟩

theorem notify_ip_not_fail {X : Type} {w w' : CoreWorld X} {msg : FailMsg}
    (h : notify_ip w = .fail w' msg) : False := by
  rcases notify_ip_cases w with ⟨w1, h1, _⟩ | ⟨w1, m, h1, _⟩ <;> rw [h1] at h <;> cases h

theorem notify_ip_not_running {X : Type} {w w' : CoreWorld X}
    (h : notify_ip w = .running w') : False := by
  rcases notify_ip_cases w with ⟨w1, h1, _⟩ | ⟨w1, m, h1, _⟩ <;> rw [h1] at h <;> cases h

theorem attempt_hook_crash_log {X : Type} {w w' : CoreWorld X}
    (h : attempt_hook w = .crash w') : w'.log = w.log := by
  rcases attempt_hook_cases w with ⟨w1, h1, hl⟩ | ⟨w1, v, m, ic, h1, _⟩
  · rw [h1] at h; cases h; exact hl
  · rw [h1] at h; cases h

theorem attempt_hook_ret_log {X : Type} {w w' : CoreWorld X} {v : Int}
    (h : attempt_hook w = .ret w' v) : ∃ m ic, w'.log = w.log ++ [Event.exec m ic] := by
  rcases attempt_hook_cases w with ⟨w1, h1, _⟩ | ⟨w1, v1, m, ic, h1, hl⟩
  · rw [h1] at h; cases h
  · rw [h1] at h; cases h; exact ⟨m, ic, hl⟩

theorem attempt_hook_not_fail {X : Type} {w w' : CoreWorld X} {msg : FailMsg}
    (h : attempt_hook w = .fail w' msg) : False := by
  rcases attempt_hook_cases w with ⟨w1, h1, _⟩ | ⟨w1, v, m, ic, h1, _⟩ <;>
    rw [h1] at h <;> cases h

theorem attempt_hook_not_running {X : Type} {w w' : CoreWorld X}
    (h : attempt_hook w = .running w') : False := by
  rcases attempt_hook_cases w with ⟨w1, h1, _⟩ | ⟨w1, v, m, ic, h1, _⟩ <;>
    rw [h1] at h <;> cases h

/-- One pass through the loop body extends the trace by a boundary trace. -/
theorem loop_body_trace {X : Type} (env : CoreEnv X) (w : CoreWorld X) :
    ∃ es, (loop_body env w).world.log = w.log ++ es ∧ boundary_trace es = true := by
  unfold loop_body
  split
  · exact (notify_ip_not_fail ‹_›).elim
  · exact ⟨[], by simp [LoopStep.world, Outcome.world, notify_ip_crash_log ‹_›], rfl⟩
  · exact (notify_ip_not_running ‹_›).elim
  · rename_i w1 u h1
    obtain ⟨m1, hl1⟩ := notify_ip_ret_log h1
    simp only []
    split
    · exact ⟨[Event.notify m1], by simp [LoopStep.world, Outcome.world, hl1], rfl⟩
    · split
      · exact ⟨[Event.notify m1], by simp [LoopStep.world, Outcome.world, hl1], rfl⟩
      · split
        · exact (attempt_hook_not_fail ‹_›).elim
        · rename_i w2 h2
          have hl2 := attempt_hook_crash_log h2
          exact ⟨[Event.notify m1], by simp [LoopStep.world, Outcome.world, hl2, hl1], rfl⟩
        · exact (attempt_hook_not_running ‹_›).elim
        · rename_i w2 hooked h2
          obtain ⟨m2, ic2, hl2⟩ := attempt_hook_ret_log h2
          simp only [] at hl2
          split
          · exact ⟨[Event.notify m1, Event.exec m2 ic2],
              by simp [LoopStep.world, hl2, hl1], rfl⟩
          · split
            · exact ⟨[Event.notify m1, Event.exec m2 ic2],
                by simp [LoopStep.world, hl2, hl1], rfl⟩
            · exact ⟨[Event.notify m1, Event.exec m2 ic2],
                by simp [LoopStep.world, Outcome.world, hl2, hl1], rfl⟩
            · split
              · exact (notify_ip_not_fail ‹_›).elim
              · rename_i w3 h3
                have hl3 := notify_ip_crash_log h3
                simp only [] at hl3
                exact ⟨[Event.notify m1, Event.exec m2 ic2],
                  by simp [LoopStep.world, Outcome.world, hl3, hl2, hl1], rfl⟩
              · exact (notify_ip_not_running ‹_›).elim
              · rename_i w3 u3 h3
                obtain ⟨m3, hl3⟩ := notify_ip_ret_log h3
                simp only [] at hl3
                exact ⟨[Event.notify m1, Event.exec m2 ic2, Event.notify m3],
                  by simp [LoopStep.world, hl3, hl2, hl1], rfl⟩
            · split
              · exact (notify_ip_not_fail ‹_›).elim
              · rename_i w3 h3
                have hl3 := notify_ip_crash_log h3
                simp only [] at hl3
                exact ⟨[Event.notify m1, Event.exec m2 ic2],
                  by simp [LoopStep.world, Outcome.world, hl3, hl2, hl1], rfl⟩
              · exact (notify_ip_not_running ‹_›).elim
              · rename_i w3 u3 h3
                obtain ⟨m3, hl3⟩ := notify_ip_ret_log h3
                simp only [] at hl3
                exact ⟨[Event.notify m1, Event.exec m2 ic2, Event.notify m3],
                  by simp [LoopStep.world, Outcome.world, hl3, hl2, hl1], rfl⟩

theorem execs_follow_notify_mono (es : List Event)
    (h : execs_follow_notify false es = true) : execs_follow_notify true es = true := by
  cases es with
  | nil => rfl
  | cons e rest =>
    cases e <;> simp_all [execs_follow_notify]

theorem boundary_trace_append (b es : List Event) (hb : boundary_trace b = true)
    (hes : execs_follow_notify false es = true ∧ count_exec es ≤ count_notify es) :
    execs_follow_notify false (b ++ es) = true ∧
      count_exec (b ++ es) ≤ count_notify (b ++ es) := by
  have hmono := execs_follow_notify_mono es hes.1
  obtain ⟨h1, h2⟩ := hes
  rcases b with _ | ⟨e1, b⟩
  · exact ⟨h1, h2⟩
  cases e1 <;> try (simp [boundary_trace] at hb)
  rcases b with _ | ⟨e2, b⟩
  · simp only [List.cons_append, List.nil_append, List.append_eq, execs_follow_notify, count_exec,
      count_notify]
    exact ⟨hmono, by omega⟩
  cases e2 <;> try (simp [boundary_trace] at hb)
  rcases b with _ | ⟨e3, b⟩
  · simp only [List.cons_append, List.nil_append, List.append_eq, execs_follow_notify, count_exec,
      count_notify, Bool.true_and]
    exact ⟨h1, by omega⟩
  cases e3 <;> try (simp [boundary_trace] at hb)
  rcases b with _ | ⟨e4, b⟩
  · simp only [List.cons_append, List.nil_append, List.append_eq, execs_follow_notify, count_exec,
      count_notify, Bool.true_and]
    exact ⟨hmono, by omega⟩
  simp [boundary_trace] at hb

/-- Every run of the loop, for any fuel, extends the trace by events among which each
`exec` directly follows a `notify`. -/
theorem run_loop_trace {X : Type} (env : CoreEnv X) (fuel : Nat) (w : CoreWorld X) :
    ∃ es, (run_loop env fuel w).world.log = w.log ++ es ∧
      execs_follow_notify false es = true ∧ count_exec es ≤ count_notify es := by
  induction fuel generalizing w with
  | zero => exact ⟨[], by simp [run_loop, Outcome.world], rfl, Nat.le_refl _⟩
  | succ n ih =>
    obtain ⟨b, hb, hbt⟩ := loop_body_trace env w
    unfold run_loop
    cases hstep : loop_body env w with
    | next w1 =>
      rw [hstep] at hb
      obtain ⟨es, hes, hp⟩ := ih w1
      refine ⟨b ++ es, ?_, boundary_trace_append b es hbt hp⟩
      simp only [LoopStep.world] at hb
      rw [hes, hb, List.append_assoc]
    | done o =>
      rw [hstep] at hb
      simp only [LoopStep.world] at hb
      refine ⟨b ++ [], ?_, boundary_trace_append b [] hbt ⟨rfl, Nat.le_refl _⟩⟩
      simpa using hb

/-- C7 as stated fails: in the state of core_normal.cpp before any load (`hook[1]` still
zero-initialised) the attempt step does not report 0 and the notify step does not return:
each writes the snapshot and then calls through a null pointer, and
`CPU_Core_Normal_Run` with cycles left ends the same way at its first notify step. -/
theorem C7_unbound_steps_counterexample :
    (¬ ∃ w', attempt_hook coreUnbound = .ret w' 0) ∧
    (¬ ∃ w', notify_ip coreUnbound = .ret w' ()) ∧
    attempt_hook coreUnbound =
      .crash { coreUnbound with
        hook.machine.registers := cpu_state_dump sampleRegs .zero } ∧
    notify_ip coreUnbound =
      .crash { coreUnbound with
        hook.machine.registers := cpu_state_dump sampleRegs .zero } ∧
    CPU_Core_Normal_Run sampleEnv 1 coreUnbound =
      .crash { coreUnbound with
        hook.machine.registers := cpu_state_dump sampleRegs .zero } := by
  refine ⟨?_, ?_, rfl, rfl, rfl⟩
  · rintro ⟨w', h⟩
    have h2 : attempt_hook coreUnbound = .crash { coreUnbound with
        hook.machine.registers := cpu_state_dump sampleRegs .zero } := rfl
    rw [h2] at h
    cases h
  · rintro ⟨w', h⟩
    have h2 : notify_ip coreUnbound = .crash { coreUnbound with
        hook.machine.registers := cpu_state_dump sampleRegs .zero } := rfl
    rw [h2] at h
    cases h

/-- C7 (amended): the interception steps of core_normal.cpp carry no enable check.  With
`hook->exec` and `hook->notify` null (no load has happened), `attempt_hook` and
`notify_ip` dump the registers into the snapshot and then call through the null pointer:
no plugin entry point runs and the host registers are unchanged, but the step does not
return.  `CPU_Core_Normal_Run` is a no-op returning `CBRET_NONE` only when entered with
`CPU_Cycles <= 0`; with cycles left it stops at its first notify step.  The loop relies
on `init_hook` instead: whenever `init_hook` returns, all three pointers are bound and
`init` has been called. -/
theorem C7_unbound_steps_unguarded (X : Type) (env : CoreEnv X) (w : CoreWorld X)
    (hexec : w.hook.exec = none) (hnotify : w.hook.notify = none) :
    attempt_hook w = .crash { w with
      hook.machine.registers := cpu_state_dump w.st.host.regs w.hook.machine.registers } ∧
    notify_ip w = .crash { w with
      hook.machine.registers := cpu_state_dump w.st.host.regs w.hook.machine.registers } ∧
    (∀ fuel, w.st.host.CPU_Cycles ≤ 0 →
      CPU_Core_Normal_Run env fuel w = .ret w env.CBRET_NONE) ∧
    (∀ fuel, 0 < w.st.host.CPU_Cycles →
      CPU_Core_Normal_Run env (fuel + 1) w = .crash { w with
        hook.machine.registers :=
          cpu_state_dump w.st.host.regs w.hook.machine.registers }) ∧
    (∀ (dlopen : String → Option (HookModule X)) (getenv : Option String)
        (w0 w1 : CoreWorld X),
      init_hook dlopen getenv w0 = .ret w1 () →
      w1.hook.init.isSome = true ∧ w1.hook.exec.isSome = true ∧
        w1.hook.notify.isSome = true ∧
        ∃ hw, w1.log = w0.log ++ [Event.init hw]) := by
  have hn : notify_ip w = .crash { w with
      hook.machine.registers :=
        cpu_state_dump w.st.host.regs w.hook.machine.registers } := by
    simp only [notify_ip, hnotify]
  refine ⟨?_, hn, ?_, ?_, ?_⟩
  · simp only [attempt_hook, hexec]
  · intro fuel hc
    simp only [CPU_Core_Normal_Run, hc, ↓reduceIte]
  · intro fuel hc
    have hc' : ¬ w.st.host.CPU_Cycles ≤ 0 := by omega
    simp only [CPU_Core_Normal_Run, hc', ↓reduceIte, run_loop, loop_body, hn]
  · intro dlopen getenv w0 w1 h
    unfold init_hook at h
    simp only [] at h
    split at h
    · cases h
    · rename_i m hm
      split at h
      · cases h
      · split at h
        · cases h
        · split at h
          · cases h
          · cases h
            simp_all

/-- Witness for C7: the state `coreUnbound` has both pointers null; both steps stop at the
null call with registers and trace untouched. -/
theorem C7_unbound_steps_unguarded_witness :
    attempt_hook coreUnbound = .crash { coreUnbound with
      hook.machine.registers := cpu_state_dump sampleRegs .zero } ∧
    notify_ip coreUnbound = .crash { coreUnbound with
      hook.machine.registers := cpu_state_dump sampleRegs .zero } :=
  ⟨(C7_unbound_steps_unguarded Nat sampleEnv coreUnbound rfl rfl).1,
   (C7_unbound_steps_unguarded Nat sampleEnv coreUnbound rfl rfl).2.1⟩

/-- C10: in `CPU_Core_Normal_Run`, every pass through the loop body in which the attempt
step calls `exec` has called `notify` first, and this holds for every run, however long
and however it ends, whatever `exec` returns: in the trace a run adds, each `exec` comes
directly after a `notify`, so there are at least as many `notify` calls as `exec` calls. -/
theorem C10_notify_every_boundary (X : Type) (env : CoreEnv X) (fuel : Nat)
    (w : CoreWorld X) :
    (∃ es, (loop_body env w).world.log = w.log ++ es ∧
      (count_exec es = 0 ∨
        ∃ m m' ic rest, es = Event.notify m :: Event.exec m' ic :: rest)) ∧
    (∃ es, (CPU_Core_Normal_Run env fuel w).world.log = w.log ++ es ∧
      execs_follow_notify false es = true ∧ count_exec es ≤ count_notify es) := by
  constructor
  · obtain ⟨es, hes, hb⟩ := loop_body_trace env w
    refine ⟨es, hes, ?_⟩
    rcases es with _ | ⟨e1, es⟩
    · exact Or.inl rfl
    cases e1 <;> try (simp [boundary_trace] at hb)
    rcases es with _ | ⟨e2, es⟩
    · exact Or.inl rfl
    cases e2 <;> try (simp [boundary_trace] at hb)
    exact Or.inr ⟨_, _, _, _, rfl⟩
  · unfold CPU_Core_Normal_Run
    split
    · exact ⟨[], by simp [Outcome.world], rfl, Nat.le_refl _⟩
    · exact run_loop_trace env fuel w

/-- A run in which `exec` claims every boundary: three cycles, three claimed boundaries,
each `exec` preceded by its `notify`, and a final `notify` before the loop is left. -/
theorem run_claimed_trace :
    ((CPU_Core_Normal_Run sampleEnv 10 (coreBound stub_exec)).world.log.map
      (fun e => match e with
        | .exec _ _ => 1
        | .notify _ => 2
        | _ => 0)) = [2, 1, 2, 1, 2, 1, 2] := by
  decide

/-- A run in which `exec` declines every boundary: each boundary has a `notify` before the
attempt and another after the native instruction. -/
theorem run_declined_trace :
    ((CPU_Core_Normal_Run sampleEnv 10 (coreBound decline_exec)).world.log.map
      (fun e => match e with
        | .exec _ _ => 1
        | .notify _ => 2
        | _ => 0)) = [2, 1, 2, 2, 1, 2, 2, 1, 2, 2] := by
  decide

/-! ## Total transfer of the dump -/

/-- The dump writes all fourteen fields: its result is the low-16-bit view of the host
registers, whatever the snapshot held. -/
theorem dump_total (r : CPU_Regs) (cpu : hooklib_machine_registers) :
    cpu_state_dump r cpu = low16_fields r := by
  simp only [cpu_state_dump, low16_fields, reg_ax, reg_bx, reg_cx, reg_dx, reg_si, reg_di,
    reg_bp, reg_sp, reg_ip, reg_flags, SegValue, lowWord, u16, Nat.mod_mod]

/-- C12: after `cpu_state_dump` each of the fourteen snapshot fields is the low 16 bits of
its host register, independent of what the snapshot held before.  Hence the previous
contents of the snapshot (whatever a plugin left there in an unhandled `exec` or in a
`notify`) have no influence on any later attempt or notify step: the snapshot shown to
the plugin, the returned value and the resulting host state are the same for every
previous snapshot `m`. -/
theorem C12_dump_total_transfer :
    (∀ (r : CPU_Regs) (cpu : hooklib_machine_registers),
      cpu_state_dump r cpu = low16_fields r) ∧
    (∀ (r : CPU_Regs) (cpu cpu' : hooklib_machine_registers),
      cpu_state_dump r cpu = cpu_state_dump r cpu') ∧
    (∀ (X : Type) (w : HookWorld X) (m : hooklib_machine_registers),
      w.hook_enable = true →
      HOOK_Attempt { w with hook.machine.registers := m } = HOOK_Attempt w ∧
      HOOK_Notify_Ip { w with hook.machine.registers := m } = HOOK_Notify_Ip w) ∧
    (∀ (X : Type) (w : HydraWorld X) (m : hooklib_machine_registers),
      w.hydra_enable = true →
      HYDRA_Attempt { w with hydra.machine.registers := m } = HYDRA_Attempt w ∧
      HYDRA_Notify_Ip { w with hydra.machine.registers := m } = HYDRA_Notify_Ip w) ∧
    (∀ (X : Type) (w : CoreWorld X) (m : hooklib_machine_registers),
      attempt_hook { w with hook.machine.registers := m } = attempt_hook w ∧
      notify_ip { w with hook.machine.registers := m } = notify_ip w) ∧
    (∀ (X : Type) (w w' : CoreWorld X) (v : Int), attempt_hook w = .ret w' v →
      w'.log = w.log ++
        [Event.exec (low16_fields w.st.host.regs) w.st.host.InterruptCount]) ∧
    (∀ (X : Type) (w w' : CoreWorld X), notify_ip w = .ret w' () →
      w'.log = w.log ++ [Event.notify (low16_fields w.st.host.regs)]) := by
  refine ⟨dump_total, ?_, ?_, ?_, ?_, ?_, ?_⟩
  · intro r cpu cpu'
    rw [dump_total, dump_total]
  · intro X w m hen
    constructor
    · simp only [HOOK_Attempt, hen, dump_total, Bool.not_true, Bool.false_eq_true, ↓reduceIte]
    · simp only [HOOK_Notify_Ip, hen, dump_total, Bool.not_true, Bool.false_eq_true, ↓reduceIte]
  · intro X w m hen
    constructor
    · simp only [HYDRA_Attempt, hen, dump_total, Bool.not_true, Bool.false_eq_true, ↓reduceIte]
    · simp only [HYDRA_Notify_Ip, hen, dump_total, Bool.not_true, Bool.false_eq_true, ↓reduceIte]
  · intro X w m
    constructor
    · simp only [attempt_hook, dump_total]
    · simp only [notify_ip, dump_total]
  · intro X w w' v h
    cases hx : w.hook.exec with
    | none => simp only [attempt_hook, hx] at h; cases h
    | some e =>
      simp only [attempt_hook, hx, dump_total] at h
      split at h <;> cases h <;> rfl
  · intro X w w' h
    cases hx : w.hook.notify with
    | none => simp only [notify_ip, hx] at h; cases h
    | some f =>
      simp only [notify_ip, hx, dump_total] at h
      cases h
      rfl

/-- Witness for C12: a dump over a fully scribbled snapshot yields the low 16 bits of
`sampleRegs`, and an attempt step started on a scribbled snapshot is the attempt step
started on any other. -/
theorem C12_dump_total_transfer_witness :
    cpu_state_dump sampleRegs scribble =
      { ax := 0x5678, bx := 0xBEEF, cx := 0x0003, dx := 0x0004, si := 0x0100,
        di := 0x0200, bp := 0xFFF0, sp := 0xFFEE, ip := 0x0100, cs := 0x1000,
        ds := 0x2000, es := 0x2000, ss := 0x3000, flags := 0x0202 } ∧
    HOOK_Attempt { hookBound decline_exec with hook.machine.registers := scribble } =
      HOOK_Attempt (hookBound decline_exec) ∧
    attempt_hook { coreBound stub_exec with hook.machine.registers := scribble } =
      attempt_hook (coreBound stub_exec) :=
  ⟨C12_dump_total_transfer.1 sampleRegs scribble,
   (C12_dump_total_transfer.2.2.1 Nat (hookBound decline_exec) scribble rfl).1,
   (C12_dump_total_transfer.2.2.2.2.1 Nat (coreBound stub_exec) scribble).1⟩

/-! ## Order of the steps within a pass -/

/-- A pass whose attempt step is claimed goes straight back to the top of the loop, in the
state the attempt step returned. -/
theorem loop_body_claimed {X : Type} (env : CoreEnv X) (w w1 w3 : CoreWorld X)
    (hooked : Int) (hn : notify_ip w = .ret w1 ()) (hc : 0 < w1.st.host.CPU_Cycles)
    (hbp : breakpoint_hit env w1 = false)
    (ha : attempt_hook (attempt_entry env w1) = .ret w3 hooked) (hh : hooked ≠ 0) :
    loop_body env w = .next w3 := by
  unfold breakpoint_hit at hbp
  unfold attempt_entry at ha
  simp only [] at hbp ha
  have hc' : w1.st.host.CPU_Cycles > 0 := hc
  simp only [loop_body, hn, hc', not_true_eq_false, ↓reduceIte, hbp, Bool.false_eq_true, ha,
    hh, ne_eq, not_false_eq_true]

/-- A pass whose attempt step is claimed does not use the native decoder at all. -/
theorem loop_body_claimed_no_decode {X : Type} (env : CoreEnv X) (w w1 w3 : CoreWorld X)
    (hooked : Int) (hn : notify_ip w = .ret w1 ()) (hc : 0 < w1.st.host.CPU_Cycles)
    (hbp : breakpoint_hit env w1 = false)
    (ha : attempt_hook (attempt_entry env w1) = .ret w3 hooked) (hh : hooked ≠ 0)
    (d : CoreState X → CoreState X × DecodeExit) :
    loop_body { env with decode := d } w = loop_body env w := by
  rw [loop_body_claimed env w w1 w3 hooked hn hc hbp ha hh]
  exact loop_body_claimed { env with decode := d } w w1 w3 hooked hn hc hbp ha hh

/-- A pass whose attempt step is declined applies the native decoder to one state only:
the state the attempt step returned, with `cycle_count` incremented. -/
theorem loop_body_declined_decode {X : Type} (env : CoreEnv X) (w w1 w3 : CoreWorld X)
    (hn : notify_ip w = .ret w1 ()) (hc : 0 < w1.st.host.CPU_Cycles)
    (hbp : breakpoint_hit env w1 = false)
    (ha : attempt_hook (attempt_entry env w1) = .ret w3 0)
    (d : CoreState X → CoreState X × DecodeExit)
    (hd : d (decode_entry w3) = env.decode (decode_entry w3)) :
    loop_body { env with decode := d } w = loop_body env w := by
  unfold breakpoint_hit at hbp
  unfold attempt_entry at ha
  unfold decode_entry at hd
  simp only [decode_setup] at hbp ha
  have hc' : w1.st.host.CPU_Cycles > 0 := hc
  simp only [loop_body, decode_setup, hn, hc', not_true_eq_false, ↓reduceIte, hbp,
    Bool.false_eq_true, ha, ne_eq, not_true_eq_false, hd]

/-- A dump taken right after a load returns the loaded snapshot. -/
theorem dump_load (cpu c0 : hooklib_machine_registers) (r : CPU_Regs) :
    cpu_state_dump (cpu_state_load cpu r) c0 = cpu.stored := by
  cases r
  simp only [cpu_state_dump, cpu_state_load, SegSet16, SegValue, reg_ax, reg_bx, reg_cx,
    reg_dx, reg_si, reg_di, reg_bp, reg_sp, reg_ip, reg_flags, lowWord_setLowWord,
    u16_idem, hooklib_machine_registers.stored]

/-- What a claimed attempt step leaves behind. -/
theorem attempt_hook_claimed_inv {X : Type} {w2 w3 : CoreWorld X} {hooked : Int}
    (ha : attempt_hook w2 = .ret w3 hooked) (hh : hooked ≠ 0) :
    ∃ exec, w2.hook.exec = some exec ∧
      hooked = (call_exec exec w2.st.host (low16_fields w2.st.host.regs)).ret ∧
      w3.hook.machine.registers =
        (call_exec exec w2.st.host (low16_fields w2.st.host.regs)).registers.stored ∧
      w3.st.host.regs = cpu_state_load w3.hook.machine.registers w2.st.host.regs ∧
      w3.hook.notify = w2.hook.notify ∧
      w3.log = w2.log ++
        [Event.exec (low16_fields w2.st.host.regs) w2.st.host.InterruptCount] := by
  cases hx : w2.hook.exec with
  | none => simp only [attempt_hook, hx] at ha; cases ha
  | some e =>
    refine ⟨e, rfl, ?_⟩
    simp only [attempt_hook, hx, dump_total] at ha
    split at ha
    · cases ha
      exact ⟨rfl, rfl, rfl, rfl, rfl⟩
    · rename_i hz
      cases ha
      exact (hz hh).elim

/-- Once the notify step at the top of a pass has returned, the rest of the pass only adds
to the trace. -/
theorem loop_body_log_prefix {X : Type} (env : CoreEnv X) (w w1 : CoreWorld X) (u : Unit)
    (hn : notify_ip w = .ret w1 u) :
    ∃ rest, (loop_body env w).world.log = w1.log ++ rest := by
  unfold loop_body
  rw [hn]
  simp only []
  split
  · exact ⟨[], by simp [LoopStep.world, Outcome.world]⟩
  · split
    · exact ⟨[], by simp [LoopStep.world, Outcome.world]⟩
    · split
      · exact (attempt_hook_not_fail ‹_›).elim
      · rename_i w2 h2
        have hl2 := attempt_hook_crash_log h2
        exact ⟨[], by simp [LoopStep.world, Outcome.world, hl2]⟩
      · exact (attempt_hook_not_running ‹_›).elim
      · rename_i w2 hooked h2
        obtain ⟨m2, ic2, hl2⟩ := attempt_hook_ret_log h2
        simp only [] at hl2
        split
        · exact ⟨[Event.exec m2 ic2], by simp [LoopStep.world, hl2]⟩
        · split
          · exact ⟨[Event.exec m2 ic2], by simp [LoopStep.world, hl2]⟩
          · exact ⟨[Event.exec m2 ic2], by simp [LoopStep.world, Outcome.world, hl2]⟩
          · split
            · exact (notify_ip_not_fail ‹_›).elim
            · rename_i w3 h3
              have hl3 := notify_ip_crash_log h3
              simp only [] at hl3
              exact ⟨[Event.exec m2 ic2],
                by simp [LoopStep.world, Outcome.world, hl3, hl2]⟩
            · exact (notify_ip_not_running ‹_›).elim
            · rename_i w3 u3 h3
              obtain ⟨m3, hl3⟩ := notify_ip_ret_log h3
              simp only [] at hl3
              exact ⟨[Event.exec m2 ic2, Event.notify m3],
                by simp [LoopStep.world, hl3, hl2]⟩
          · split
            · exact (notify_ip_not_fail ‹_›).elim
            · rename_i w3 h3
              have hl3 := notify_ip_crash_log h3
              simp only [] at hl3
              exact ⟨[Event.exec m2 ic2],
                by simp [LoopStep.world, Outcome.world, hl3, hl2]⟩
            · exact (notify_ip_not_running ‹_›).elim
            · rename_i w3 u3 h3
              obtain ⟨m3, hl3⟩ := notify_ip_ret_log h3
              simp only [] at hl3
              exact ⟨[Event.exec m2 ic2, Event.notify m3],
                by simp [LoopStep.world, Outcome.world, hl3, hl2]⟩

/-- C11: in a pass of `CPU_Core_Normal_Run` that reaches the attempt step (the notify
step returned `w1`, cycles were left, no breakpoint), `exec` has been called when the
attempt step returns `w3`, and the native decoder comes after it: it is applied, if at
all, only to the state the attempt step returned.  When `exec` claims the boundary the
decoder is not used, the pass ends in `w3` with the snapshot `r` that `exec` left loaded
into the host registers, and the notify step that comes next, at the top of the following
pass, is presented exactly `r`. -/
theorem C11_boundary_ordering (X : Type) (env : CoreEnv X) (w w1 w3 : CoreWorld X)
    (hooked : Int) (hn : notify_ip w = .ret w1 ()) (hc : 0 < w1.st.host.CPU_Cycles)
    (hbp : breakpoint_hit env w1 = false)
    (ha : attempt_hook (attempt_entry env w1) = .ret w3 hooked) :
    (∃ m ic, w3.log = w1.log ++ [Event.exec m ic]) ∧
    (hooked = 0 → ∀ d : CoreState X → CoreState X × DecodeExit,
      d (decode_entry w3) = env.decode (decode_entry w3) →
      loop_body { env with decode := d } w = loop_body env w) ∧
    (hooked ≠ 0 →
      (∀ d : CoreState X → CoreState X × DecodeExit,
        loop_body { env with decode := d } w = loop_body env w) ∧
      loop_body env w = .next w3 ∧
      (∃ exec, (attempt_entry env w1).hook.exec = some exec ∧
        w3.hook.machine.registers =
          (call_exec exec (attempt_entry env w1).st.host
            (low16_fields (attempt_entry env w1).st.host.regs)).registers.stored) ∧
      host_fields w3.st.host.regs = w3.hook.machine.registers ∧
      (∀ cpu, cpu_state_dump w3.st.host.regs cpu = w3.hook.machine.registers) ∧
      (∀ f, w3.hook.notify = some f →
        (∃ w4, notify_ip w3 = .ret w4 () ∧
          w4.log = w3.log ++ [Event.notify w3.hook.machine.registers]) ∧
        ∃ rest, (loop_body env w3).world.log =
          w3.log ++ Event.notify w3.hook.machine.registers :: rest)) := by
  refine ⟨?_, ?_, ?_⟩
  · obtain ⟨m, ic, hl⟩ := attempt_hook_ret_log ha
    exact ⟨m, ic, hl⟩
  · intro hz d hd
    subst hz
    exact loop_body_declined_decode env w w1 w3 hn hc hbp ha d hd
  · intro hh
    obtain ⟨exec, hx, -, hr, hregs, -, -⟩ := attempt_hook_claimed_inv ha hh
    have hstored : w3.hook.machine.registers.stored = w3.hook.machine.registers := by
      rw [hr, stored_idem]
    have hdump : ∀ cpu, cpu_state_dump w3.st.host.regs cpu = w3.hook.machine.registers := by
      intro cpu
      rw [hregs, dump_load, hstored]
    refine ⟨fun d => loop_body_claimed_no_decode env w w1 w3 hooked hn hc hbp ha hh d,
      loop_body_claimed env w w1 w3 hooked hn hc hbp ha hh, ⟨exec, hx, hr⟩, ?_, hdump, ?_⟩
    · rw [hregs, host_fields_load, hstored]
    · intro f hf
      have hn3 : ∃ w4, notify_ip w3 = .ret w4 () ∧
          w4.log = w3.log ++ [Event.notify w3.hook.machine.registers] := by
        simp only [notify_ip, hf, hdump]
        exact ⟨_, rfl, rfl⟩
      refine ⟨hn3, ?_⟩
      obtain ⟨w4, h4, hl4⟩ := hn3
      obtain ⟨rest, hrest⟩ := loop_body_log_prefix env w3 w4 () h4
      exact ⟨rest, by rw [hrest, hl4, List.append_assoc]; rfl⟩

/-- Witness for C11: in the first pass from `coreBound stub_exec` the stub claims the
boundary; the pass ends in the state the attempt step returned, whose host registers read
back as the snapshot the stub left (`ax = 0xABCD`), and the next notify step is presented
that snapshot. -/
theorem C11_boundary_ordering_witness :
    loop_body sampleEnv (coreBound stub_exec) = .next claimedPassAttempted ∧
    claimedPassAttempted.hook.machine.registers =
      { ax := 0xABCD, bx := 0xBEEF, cx := 0x0003, dx := 0x0004, si := 0x0100,
        di := 0x0200, bp := 0xFFF0, sp := 0xFFEE, ip := 0x0100, cs := 0x1000,
        ds := 0x2000, es := 0x2000, ss := 0x3000, flags := 0x0202 } ∧
    host_fields claimedPassAttempted.st.host.regs =
      claimedPassAttempted.hook.machine.registers ∧
    (∃ w4, notify_ip claimedPassAttempted = .ret w4 () ∧
      w4.log = claimedPassAttempted.log ++
        [Event.notify claimedPassAttempted.hook.machine.registers]) :=
  have h := (C11_boundary_ordering Nat sampleEnv (coreBound stub_exec) claimedPassNotified
    claimedPassAttempted 1 rfl (by decide) rfl rfl).2.2 (by decide)
  ⟨h.2.1, by decide, h.2.2.2.1, (h.2.2.2.2.2 scribble_notify rfl).1⟩

/-! ## Termination when every boundary is claimed -/

/-- The notify step with `notify` bound: it returns, keeps the binding and the trace
grows by one notify event. -/
theorem notify_ip_bound {X : Type} (w : CoreWorld X) (f : hooklib_notify_fn X)
    (hf : w.hook.notify = some f) :
    notify_ip w = .ret (notify_ip w).world () ∧
    (notify_ip w).world.hook.exec = w.hook.exec ∧
    (notify_ip w).world.hook.notify = w.hook.notify ∧
    (notify_ip w).world.st.host.CPU_Cycles =
      (f w.st.host.ext w.st.host.CPU_Cycles (low16_fields w.st.host.regs)).CPU_Cycles ∧
    (notify_ip w).world.log = w.log ++ [Event.notify (low16_fields w.st.host.regs)] := by
  simp only [notify_ip, hf, dump_total, Outcome.world, call_notify, and_self]

/-- The attempt step with `exec` bound: it returns what `exec` returned, keeps the binding
and the trace grows by one exec event. -/
theorem attempt_hook_bound {X : Type} (w : CoreWorld X) (e : hooklib_exec_fn X)
    (he : w.hook.exec = some e) :
    attempt_hook w = .ret (attempt_hook w).world
      (e w.st.host.ext w.st.host.CPU_Cycles (low16_fields w.st.host.regs)
        w.st.host.InterruptCount).ret ∧
    (attempt_hook w).world.hook.exec = w.hook.exec ∧
    (attempt_hook w).world.hook.notify = w.hook.notify ∧
    (attempt_hook w).world.st.host.CPU_Cycles =
      (e w.st.host.ext w.st.host.CPU_Cycles (low16_fields w.st.host.regs)
        w.st.host.InterruptCount).CPU_Cycles ∧
    (attempt_hook w).world.log = w.log ++
      [Event.exec (low16_fields w.st.host.regs) w.st.host.InterruptCount] := by
  simp only [attempt_hook, he, dump_total, call_exec]
  split <;> simp only [Outcome.world, and_self]

/-- The state in which the attempt step runs, when no breakpoint is hit and the
breakpoint test leaves `CPU_Cycles` alone: same binding, same trace, one cycle less. -/
theorem attempt_entry_facts {X : Type} (env : CoreEnv X) (w : CoreWorld X)
    (hdbg : ∀ st, (env.DEBUG_HeavyIsBreakpoint st).2 = false ∧
      (env.DEBUG_HeavyIsBreakpoint st).1.host.CPU_Cycles = st.host.CPU_Cycles) :
    breakpoint_hit env w = false ∧
    (attempt_entry env w).hook = w.hook ∧
    (attempt_entry env w).log = w.log ∧
    (attempt_entry env w).st.host.CPU_Cycles = w.st.host.CPU_Cycles - 1 := by
  refine ⟨?_, rfl, rfl, ?_⟩
  · simp only [breakpoint_hit]
    exact (hdbg _).1
  · simp only [attempt_entry]
    rw [(hdbg _).2]
    simp only [decode_setup, LOADIP]

/-- A pass with cycles left in which `exec` claims the boundary: whatever the native
decoder is, the pass goes back to the top of the loop with one cycle less, the binding
kept, and one notify and one exec added to the trace. -/
theorem claimed_pass {X : Type} (env : CoreEnv X) (w : CoreWorld X)
    (e : hooklib_exec_fn X) (f : hooklib_notify_fn X)
    (he : w.hook.exec = some e) (hf : w.hook.notify = some f)
    (hclaims : ∀ x c m ic, (e x c m ic).ret ≠ 0)
    (hec : ∀ x c m ic, (e x c m ic).CPU_Cycles = c)
    (hfc : ∀ x c m, (f x c m).CPU_Cycles = c)
    (hdbg : ∀ st, (env.DEBUG_HeavyIsBreakpoint st).2 = false ∧
      (env.DEBUG_HeavyIsBreakpoint st).1.host.CPU_Cycles = st.host.CPU_Cycles)
    (hc : 0 < w.st.host.CPU_Cycles) :
    ∃ w' m m' ic,
      (∀ d : CoreState X → CoreState X × DecodeExit,
        loop_body { env with decode := d } w = .next w') ∧
      w'.hook.exec = some e ∧ w'.hook.notify = some f ∧
      w'.st.host.CPU_Cycles = w.st.host.CPU_Cycles - 1 ∧
      w'.log = w.log ++ [Event.notify m, Event.exec m' ic] := by
  obtain ⟨h1, h1e, h1n, h1c, h1l⟩ := notify_ip_bound w f hf
  rw [hfc] at h1c
  obtain ⟨hbp, h2h, h2l, h2c⟩ := attempt_entry_facts env (notify_ip w).world hdbg
  have h2e : (attempt_entry env (notify_ip w).world).hook.exec = some e := by
    rw [h2h, h1e, he]
  obtain ⟨h3, h3e, h3n, h3c, h3l⟩ :=
    attempt_hook_bound (attempt_entry env (notify_ip w).world) e h2e
  rw [hec] at h3c
  refine ⟨(attempt_hook (attempt_entry env (notify_ip w).world)).world,
    low16_fields w.st.host.regs,
    low16_fields (attempt_entry env (notify_ip w).world).st.host.regs,
    (attempt_entry env (notify_ip w).world).st.host.InterruptCount, ?_, ?_, ?_, ?_, ?_⟩
  · intro d
    exact loop_body_claimed { env with decode := d } w (notify_ip w).world _ _ h1
      (by rw [h1c]; exact hc) hbp h3 (hclaims _ _ _ _)
  · rw [h3e, h2e]
  · rw [h3n, h2h, h1n, hf]
  · rw [h3c, h2c, h1c]
  · rw [h3l, h2l, h1l, List.append_assoc]
    rfl

/-- A pass whose notify step returns with no cycles left ends the loop: `CPU_Cycles` is
decremented once more, `FillFlags` runs and `CBRET_NONE` is returned. -/
theorem loop_body_exit {X : Type} (env : CoreEnv X) (w w1 : CoreWorld X)
    (hn : notify_ip w = .ret w1 ()) (hc : ¬ w1.st.host.CPU_Cycles > 0) :
    loop_body env w = .done (.ret { w1 with
      st := env.FillFlags { w1.st with host.CPU_Cycles := w1.st.host.CPU_Cycles - 1 } }
      env.CBRET_NONE) := by
  simp only [loop_body, hn, hc, not_false_eq_true, ↓reduceIte]

/-- A pass entered with no cycles left: after its notify step the loop is left and
`CBRET_NONE` returned, whatever the native decoder is. -/
theorem exit_pass {X : Type} (env : CoreEnv X) (w : CoreWorld X)
    (f : hooklib_notify_fn X) (hf : w.hook.notify = some f)
    (hfc : ∀ x c m, (f x c m).CPU_Cycles = c)
    (hc : w.st.host.CPU_Cycles ≤ 0) :
    ∃ w' m,
      (∀ d : CoreState X → CoreState X × DecodeExit,
        loop_body { env with decode := d } w = .done (.ret w' env.CBRET_NONE)) ∧
      w'.log = w.log ++ [Event.notify m] := by
  obtain ⟨h1, -, -, h1c, h1l⟩ := notify_ip_bound w f hf
  rw [hfc] at h1c
  have hc' : ¬ (notify_ip w).world.st.host.CPU_Cycles > 0 := by
    rw [h1c]
    omega
  exact ⟨{ (notify_ip w).world with
      st := env.FillFlags { (notify_ip w).world.st with
        host.CPU_Cycles := (notify_ip w).world.st.host.CPU_Cycles - 1 } },
    low16_fields w.st.host.regs,
    fun d => loop_body_exit { env with decode := d } w _ h1 hc', h1l⟩

/-- The loop with `n` cycles left and a plugin that claims every boundary: with fuel for
`n + 1` passes it returns `CBRET_NONE` after `n` exec and `n + 1` notify calls, whatever
the native decoder is. -/
theorem run_loop_claimed {X : Type} (env : CoreEnv X)
    (e : hooklib_exec_fn X) (f : hooklib_notify_fn X)
    (hclaims : ∀ x c m ic, (e x c m ic).ret ≠ 0)
    (hec : ∀ x c m ic, (e x c m ic).CPU_Cycles = c)
    (hfc : ∀ x c m, (f x c m).CPU_Cycles = c)
    (hdbg : ∀ st, (env.DEBUG_HeavyIsBreakpoint st).2 = false ∧
      (env.DEBUG_HeavyIsBreakpoint st).1.host.CPU_Cycles = st.host.CPU_Cycles)
    (n : Nat) :
    ∀ (w : CoreWorld X) (fuel : Nat), w.hook.exec = some e → w.hook.notify = some f →
      w.st.host.CPU_Cycles = (n : Int) → n + 1 ≤ fuel →
      ∃ w' es,
        (∀ d : CoreState X → CoreState X × DecodeExit,
          run_loop { env with decode := d } fuel w = .ret w' env.CBRET_NONE) ∧
        w'.log = w.log ++ es ∧ count_exec es = n ∧ count_notify es = n + 1 ∧
        es.length = 2 * n + 1 := by
  induction n with
  | zero =>
    intro w fuel _ hf hcyc hfuel
    obtain ⟨k, rfl⟩ : ∃ k, fuel = k + 1 := ⟨fuel - 1, by omega⟩
    obtain ⟨w', m, hbody, hlog⟩ := exit_pass env w f hf hfc (by rw [hcyc]; simp)
    refine ⟨w', [Event.notify m], ?_, hlog, rfl, rfl, rfl⟩
    intro d
    simp only [run_loop, hbody d]
  | succ n ih =>
    intro w fuel he hf hcyc hfuel
    obtain ⟨k, rfl⟩ : ∃ k, fuel = k + 1 := ⟨fuel - 1, by omega⟩
    obtain ⟨w1, m, m', ic, hbody, h1e, h1n, h1c, h1l⟩ :=
      claimed_pass env w e f he hf hclaims hec hfc hdbg (by rw [hcyc]; omega)
    have hcyc1 : w1.st.host.CPU_Cycles = (n : Int) := by
      rw [h1c, hcyc]
      omega
    obtain ⟨w', es, hrun, hlog, hce, hcn, hlen⟩ := ih w1 k h1e h1n hcyc1 (by omega)
    refine ⟨w', [Event.notify m, Event.exec m' ic] ++ es, ?_, ?_, ?_, ?_, ?_⟩
    · intro d
      simp only [run_loop, hbody d]
      exact hrun d
    · rw [hlog, h1l, List.append_assoc]
    · simp only [List.cons_append, List.nil_append, List.append_eq, count_exec, hce]
    · simp only [List.cons_append, List.nil_append, List.append_eq, count_notify, hcn]
    · simp only [List.cons_append, List.nil_append, List.length_cons, hlen]
      omega

/-- C13: entered with `CPU_Cycles = n > 0`, a bound plugin whose `exec` always returns
nonzero and whose `exec` and `notify` leave `CPU_Cycles` alone, and no breakpoint hit (the
breakpoint test, compiled in only under `C_HEAVY_DEBUG`, is false and leaves `CPU_Cycles`
alone), `CPU_Core_Normal_Run` terminates: with fuel for `n + 1` passes it returns
`CBRET_NONE`, having called `exec` exactly `n` times and `notify` exactly `n + 1` times
and nothing else, and the result does not depend on the native decoder.  Entered with
`CPU_Cycles <= 0` it returns `CBRET_NONE` at once in an unchanged state. -/
theorem C13_claimed_run_terminates :
    (∀ (X : Type) (env : CoreEnv X) (w : CoreWorld X) (e : hooklib_exec_fn X)
        (f : hooklib_notify_fn X) (n fuel : Nat),
      w.hook.exec = some e → w.hook.notify = some f →
      (∀ x c m ic, (e x c m ic).ret ≠ 0) →
      (∀ x c m ic, (e x c m ic).CPU_Cycles = c) →
      (∀ x c m, (f x c m).CPU_Cycles = c) →
      (∀ st, (env.DEBUG_HeavyIsBreakpoint st).2 = false ∧
        (env.DEBUG_HeavyIsBreakpoint st).1.host.CPU_Cycles = st.host.CPU_Cycles) →
      w.st.host.CPU_Cycles = (n : Int) → 0 < n → n + 1 ≤ fuel →
      ∃ w' es,
        CPU_Core_Normal_Run env fuel w = .ret w' env.CBRET_NONE ∧
        w'.log = w.log ++ es ∧ count_exec es = n ∧ count_notify es = n + 1 ∧
        es.length = 2 * n + 1 ∧
        ∀ d : CoreState X → CoreState X × DecodeExit,
          CPU_Core_Normal_Run { env with decode := d } fuel w =
            CPU_Core_Normal_Run env fuel w) ∧
    (∀ (X : Type) (env : CoreEnv X) (w : CoreWorld X) (fuel : Nat),
      w.st.host.CPU_Cycles ≤ 0 →
      CPU_Core_Normal_Run env fuel w = .ret w env.CBRET_NONE) := by
  constructor
  · intro X env w e f n fuel he hf hclaims hec hfc hdbg hcyc hpos hfuel
    obtain ⟨w', es, hrun, hlog, hce, hcn, hlen⟩ :=
      run_loop_claimed env e f hclaims hec hfc hdbg n w fuel he hf hcyc hfuel
    have hc : ¬ w.st.host.CPU_Cycles ≤ 0 := by
      rw [hcyc]
      omega
    have hself : run_loop env fuel w = .ret w' env.CBRET_NONE := hrun env.decode
    refine ⟨w', es, ?_, hlog, hce, hcn, hlen, ?_⟩
    · simp only [CPU_Core_Normal_Run, hc, ↓reduceIte, hself]
    · intro d
      simp only [CPU_Core_Normal_Run, hc, ↓reduceIte, hself, hrun d]
  · intro X env w fuel hc
    simp only [CPU_Core_Normal_Run, hc, ↓reduceIte]

/-- Witness for C13: from `coreBound stub_exec` with three cycles and fuel for ten passes,
the run returns `CBRET_NONE` after three exec and four notify calls; and the unbound
state with its cycles set to zero returns at once, unchanged. -/
theorem C13_claimed_run_terminates_witness :
    (∃ w' es,
      CPU_Core_Normal_Run sampleEnv 10 (coreBound stub_exec) = .ret w' sampleEnv.CBRET_NONE ∧
      w'.log = (coreBound stub_exec).log ++ es ∧ count_exec es = 3 ∧
      count_notify es = 3 + 1 ∧ es.length = 2 * 3 + 1 ∧
      ∀ d : CoreState Nat → CoreState Nat × DecodeExit,
        CPU_Core_Normal_Run { sampleEnv with decode := d } 10 (coreBound stub_exec) =
          CPU_Core_Normal_Run sampleEnv 10 (coreBound stub_exec)) ∧
    CPU_Core_Normal_Run sampleEnv 10 { coreUnbound with st.host.CPU_Cycles := 0 } =
      .ret { coreUnbound with st.host.CPU_Cycles := 0 } sampleEnv.CBRET_NONE :=
  ⟨C13_claimed_run_terminates.1 Nat sampleEnv (coreBound stub_exec) stub_exec
      scribble_notify 3 10 rfl rfl (fun _ _ _ _ => by simp [stub_exec]) (fun _ _ _ _ => rfl)
      (fun _ _ _ => rfl) (fun _ => ⟨rfl, rfl⟩) rfl (by decide) (by decide),
   C13_claimed_run_terminates.2 Nat sampleEnv _ 10 (by decide)⟩

end DosboxHook
